import Mathlib

/-!
# DendyStreamingBox: the animated menu core of `src/main.cpp`

A shallow embedding of the menu-item animator, the particle system and the
update half of the main loop, followed by the properties of the specification
that were checked against it.

Number model.  A C++ `float` is embedded as a rational number `ℚ`; `unsigned char` is
`Fin 256`; `int` is `Int`.  The rounding of binary32 is `roundToFloat` (round to nearest,
ties to even).  It is applied where a float is built up frame after frame, that is in
the `+=` of the particle update (`lifeTime`, `position`) and of the main loop
(`introAnimationTimer`, `pulseTimer`, `backgroundRotation`), and in the staggered intro
progress with its literal `0.1f`; the remaining float expressions are evaluated exactly.
The two narrowing conversions used by the program are explicit: `truncToInt` (float to
int, rounding toward zero) and `toUChar` (int to unsigned char, modulo 256).
-/

namespace Dendy

/-! ## Scalars and conversions -/

/-- An `unsigned char`: a value in `0..255`. -/
abbrev UChar := Fin 256

/-- Conversion `(int)x` of a float: the fractional part is discarded (rounding toward zero). -/
def truncToInt (x : ℚ) : Int :=
  if 0 ≤ x then ⌊x⌋ else ⌈x⌉

/-- Conversion `(unsigned char)n` of an integer: reduction modulo 256. -/
def toUChar (n : Int) : UChar :=
  ⟨(n % 256).toNat, by omega⟩

/-- Conversion `(unsigned char)x` of a float: truncation, then the low byte. -/
def floatToUChar (x : ℚ) : UChar :=
  toUChar (truncToInt x)

/-- Conversion of an `unsigned char` to float. -/
def UChar.toFloat (c : UChar) : ℚ :=
  (c.val : ℚ)

/-! ## Rounding to binary32 -/

/-- Rounding of a rational to the nearest integer, a tie going to the even one. -/
def roundNearestEven (x : ℚ) : Int :=
  if x - ⌊x⌋ < 1 / 2 then ⌊x⌋
  else if 1 / 2 < x - ⌊x⌋ then ⌊x⌋ + 1
  else if ⌊x⌋ % 2 = 0 then ⌊x⌋ else ⌊x⌋ + 1

/-- The binary exponent of the unit in the last place of binary32 at the magnitude of `x`:
23 below the binary exponent of `x`, and not below -149 (the subnormal range). -/
def ulpExponent (x : ℚ) : Int :=
  max (Int.log 2 |x| - 23) (-149)

/-- Rounding of a rational that is not negative to binary32: the nearest multiple of the
unit in the last place, a tie going to the even multiple. -/
def roundMagnitude (x : ℚ) : ℚ :=
  (roundNearestEven (x / 2 ^ ulpExponent x) : ℚ) * 2 ^ ulpExponent x

/-- Rounding of the exact result of a float operation to binary32 (round to nearest, ties
to even, with subnormals).  The exponent is not bounded above: overflow to infinity is
outside the embedding. -/
def roundToFloat (x : ℚ) : ℚ :=
  if 0 ≤ x then roundMagnitude x else -roundMagnitude (-x)

/-! ## raylib value types -/

/-- The raylib `Vector3`. -/
structure Vector3 where
  x : ℚ
  y : ℚ
  z : ℚ
  deriving DecidableEq, Repr

/-- The raylib `Color`: four `unsigned char` channels. -/
structure Color where
  r : UChar
  g : UChar
  b : UChar
  a : UChar
  deriving DecidableEq, Repr

/-- The raylib colour constant `DARKGRAY`. -/
def DARKGRAY : Color := ⟨80, 80, 80, 255⟩

/-- The raylib colour constant `BLUE`. -/
def BLUE : Color := ⟨0, 121, 241, 255⟩

/-- The raylib colour constant `GOLD`. -/
def GOLD : Color := ⟨255, 203, 0, 255⟩

/-- Modelled from the spec: raymath `Lerp` is not part of `src/`; section 4.1 of the
specification gives it as `current + α*(target - current)`. -/
def Lerp (start stop amount : ℚ) : ℚ :=
  start + amount * (stop - start)

/-- Modelled from the spec: raymath `Vector3Lerp` is not part of `src/`; section 4.1 of the
specification gives it as `Lerp` applied to each component. -/
def Vector3Lerp (v1 v2 : Vector3) (amount : ℚ) : Vector3 :=
  ⟨Lerp v1.x v2.x amount, Lerp v1.y v2.y amount, Lerp v1.z v2.z amount⟩

/-! ## Particles (`src/main.cpp`, lines 111-182) -/

/-- The `Particle` struct. -/
structure Particle where
  position : Vector3
  velocity : Vector3
  color : Color
  size : ℚ
  lifeTime : ℚ
  maxLifeTime : ℚ
  deriving DecidableEq, Repr

/-- The in-place update of `particles[i]` in the body of `ParticleSystem::Update`
(lines 155-164): move by the velocity, age by the frame time, recompute alpha.  Each `+=`
stores its sum rounded to float. -/
def Particle.advance (frameTime : ℚ) (p : Particle) : Particle :=
  let position : Vector3 :=
    ⟨roundToFloat (p.position.x + p.velocity.x), roundToFloat (p.position.y + p.velocity.y),
     roundToFloat (p.position.z + p.velocity.z)⟩
  let lifeTime := roundToFloat (p.lifeTime + frameTime)
  let alpha := 1 - lifeTime / p.maxLifeTime
  { p with
    position := position
    lifeTime := lifeTime
    color := { p.color with a := toUChar (truncToInt (255 * alpha)) } }

/-- The removal test of line 167: `lifeTime >= maxLifeTime`. -/
def Particle.dead (p : Particle) : Bool :=
  decide (p.maxLifeTime ≤ p.lifeTime)

/-- The class `ParticleSystem`: a vector of particles. -/
structure ParticleSystem where
  particles : List Particle
  deriving DecidableEq, Repr

/-- The `for` loop of `ParticleSystem::Update` (lines 152-172), from loop index `i`.
The index is a signed `int`: after an erase it is decremented (possibly to `-1`)
and the loop increment brings it back.  The guard compares it with the unsigned
size, so it holds only for a non-negative index below the size. -/
def ParticleSystem.Update.loop (frameTime : ℚ) (i : Int) (particles : List Particle) :
    List Particle :=
  if h : 0 ≤ i ∧ i < particles.length then
    have hi : i.toNat < particles.length := by omega
    let particles1 := particles.set i.toNat (particles[i.toNat].advance frameTime)
    have hi1 : i.toNat < particles1.length := by simp [particles1]; omega
    if particles1[i.toNat].dead then
      ParticleSystem.Update.loop frameTime ((i - 1) + 1) (particles1.eraseIdx i.toNat)
    else
      ParticleSystem.Update.loop frameTime (i + 1) particles1
  else
    particles
termination_by particles.length - i.toNat
decreasing_by
  · have h1 : (particles1.eraseIdx i.toNat).length = particles.length - 1 := by
      rw [List.length_eraseIdx]; simp [particles1, hi]
    rw [h1]; omega
  · have h1 : particles1.length = particles.length := by simp [particles1]
    rw [h1]; omega

/-- The method `ParticleSystem::Update`; `frameTime` is the value of `GetFrameTime()`,
constant during one frame. -/
def ParticleSystem.Update (frameTime : ℚ) (ps : ParticleSystem) : ParticleSystem :=
  { ps with particles := ParticleSystem.Update.loop frameTime 0 ps.particles }

/-- The sequence of `Update` calls of successive frames, one frame time per call. -/
def ParticleSystem.UpdateMany (frameTimes : List ℚ) (ps : ParticleSystem) : ParticleSystem :=
  frameTimes.foldl (fun s frameTime => s.Update frameTime) ps

/-- The result of the spec's reading of `Update` (section 4.2 and the design note on
in-place removal): step every particle once, in order, then keep the ones that have
not reached their maximum life time, in order. -/
def ParticleSystem.UpdateByRetain (frameTime : ℚ) (ps : ParticleSystem) : ParticleSystem :=
  { ps with
    particles :=
      (ps.particles.map (fun p => p.advance frameTime)).filter
        (fun p => decide (¬ p.maxLifeTime ≤ p.lifeTime)) }

/-! ## The C library random source -/

/-- The environment of the program that is not computed by it: the constant `RAND_MAX`,
the results of the successive calls of `rand()` (`rand k` is the result of call number
`k`), and the library function `sinf`. -/
structure Env where
  RAND_MAX : Nat
  rand : Nat → Nat
  sinf : ℚ → ℚ

/-- The function `GetRandomFloat` (lines 6-9); `r` is the result of its `rand()` call. -/
def GetRandomFloat (env : Env) (r : Nat) (min max : ℚ) : ℚ :=
  min + (r : ℚ) / ((env.RAND_MAX : ℚ) / (max - min))

/-- The function `GetRandomUChar` (lines 11-14); `r` is the result of its `rand()` call.
The operands are promoted to `int`; the remainder and the sum are converted back. -/
def GetRandomUChar (r : Nat) (min max : UChar) : UChar :=
  toUChar ((min.val : Int) +
    ((toUChar (Int.tmod (r : Int) ((max.val : Int) - (min.val : Int) + 1))).val : Int))

/-- The `for` loop of `ParticleSystem::AddParticles` (lines 134-147) with `n` iterations
left; `k` counts the calls of `rand()` made so far.  Each new particle makes five
calls: three for the velocity, one for the size, one for the maximum life time. -/
def ParticleSystem.AddParticles.loop (env : Env) (position : Vector3) (color : Color) :
    Nat → List Particle → Nat → List Particle × Nat
  | 0, particles, k => (particles, k)
  | n + 1, particles, k =>
    let p : Particle :=
      { position := position
        velocity :=
          ⟨GetRandomFloat env (env.rand k) (-0.05) 0.05,
           GetRandomFloat env (env.rand (k + 1)) 0.01 0.05,
           GetRandomFloat env (env.rand (k + 2)) (-0.05) 0.05⟩
        color := color
        size := GetRandomFloat env (env.rand (k + 3)) 0.05 0.15
        lifeTime := 0
        maxLifeTime := GetRandomFloat env (env.rand (k + 4)) 1 2 }
    ParticleSystem.AddParticles.loop env position color n (particles ++ [p]) (k + 5)

/-- The method `ParticleSystem::AddParticles`: appends `count` particles (none when
`count` is not positive) and returns the advanced count of `rand()` calls. -/
def ParticleSystem.AddParticles (env : Env) (position : Vector3) (color : Color) (count : Int)
    (ps : ParticleSystem) (k : Nat) : ParticleSystem × Nat :=
  let r := ParticleSystem.AddParticles.loop env position color count.toNat ps.particles k
  ({ ps with particles := r.1 }, r.2)

/-- The particle collections the program can hold: the empty collection of the
constructor, closed under `AddParticles` and under `Update` with a frame time that is
not negative. -/
inductive ParticleSystem.Reachable (env : Env) : ParticleSystem → Prop
  | init : ParticleSystem.Reachable env ⟨[]⟩
  | add (ps : ParticleSystem) (position : Vector3) (color : Color) (count : Int) (k : Nat) :
      ParticleSystem.Reachable env ps →
      ParticleSystem.Reachable env (ps.AddParticles env position color count k).1
  | update (ps : ParticleSystem) (frameTime : ℚ) :
      ParticleSystem.Reachable env ps → 0 ≤ frameTime →
      ParticleSystem.Reachable env (ps.Update frameTime)

/-! ## Menu items (`src/main.cpp`, lines 16-109) -/

/-- The constant `numMenuItems`. -/
def numMenuItems : Int := 3

/-- The constant `itemSpacing`. -/
def itemSpacing : ℚ := 5.0

/-- The constant `hoverScale`. -/
def hoverScale : ℚ := 1.2

/-- The constant `introAnimationDuration`. -/
def introAnimationDuration : ℚ := 2.0

/-- The raylib `Model`, of which the program only copies a handle. -/
structure Model where
  handle : Nat
  deriving DecidableEq, Repr, Inhabited

instance : Inhabited Vector3 := ⟨⟨0, 0, 0⟩⟩

instance : Inhabited Color := ⟨⟨0, 0, 0, 0⟩⟩

/-- The class `MenuItem`. -/
structure MenuItem where
  model : Model
  position : Vector3
  initialPosition : Vector3
  targetPosition : Vector3
  rotation : Vector3
  targetRotation : Vector3
  scale : Vector3
  initialScale : Vector3
  targetScale : Vector3
  text : String
  color : Color
  initialColor : Color
  targetColor : Color
  selected : Bool
  deriving DecidableEq, Repr, Inhabited

/-- The constructor `MenuItem::MenuItem` (lines 44-64). -/
def MenuItem.ctor (m : Model) (pos : Vector3) (t : String) : MenuItem :=
  let initialPosition : Vector3 := ⟨pos.x, pos.y - 20.0, pos.z⟩
  let rotation : Vector3 := ⟨0.0, 0.0, 0.0⟩
  let initialScale : Vector3 := ⟨0.0, 0.0, 0.0⟩
  let initialColor : Color := ⟨DARKGRAY.r, DARKGRAY.g, DARKGRAY.b, 0⟩
  { model := m
    position := initialPosition
    initialPosition := initialPosition
    targetPosition := pos
    rotation := rotation
    targetRotation := rotation
    scale := initialScale
    initialScale := initialScale
    targetScale := ⟨1.0, 1.0, 1.0⟩
    text := t
    color := initialColor
    initialColor := initialColor
    targetColor := DARKGRAY
    selected := false }

/-- The method `MenuItem::Update` (lines 66-78). -/
def MenuItem.Update (m : MenuItem) : MenuItem :=
  { m with
    position := Vector3Lerp m.position m.targetPosition 0.1
    rotation := Vector3Lerp m.rotation m.targetRotation 0.1
    scale := Vector3Lerp m.scale m.targetScale 0.1
    color :=
      { r := floatToUChar (Lerp m.color.r.toFloat m.targetColor.r.toFloat 0.1)
        g := floatToUChar (Lerp m.color.g.toFloat m.targetColor.g.toFloat 0.1)
        b := floatToUChar (Lerp m.color.b.toFloat m.targetColor.b.toFloat 0.1)
        a := floatToUChar (Lerp m.color.a.toFloat m.targetColor.a.toFloat 0.1) } }

/-- The method `MenuItem::SetSelected` (lines 86-100). -/
def MenuItem.SetSelected (m : MenuItem) (isSelected : Bool) : MenuItem :=
  let m := { m with selected := isSelected }
  if m.selected then
    { m with
      targetColor := BLUE
      targetScale := ⟨hoverScale, hoverScale, hoverScale⟩
      targetRotation := { m.targetRotation with y := m.targetRotation.y + 0.5 } }
  else
    { m with
      targetColor := DARKGRAY
      targetScale := ⟨1.0, 1.0, 1.0⟩ }

/-- The method `MenuItem::AnimateIntro` (lines 103-108). -/
def MenuItem.AnimateIntro (m : MenuItem) (progress : ℚ) : MenuItem :=
  { m with
    position := Vector3Lerp m.initialPosition m.targetPosition progress
    scale := Vector3Lerp m.initialScale m.targetScale progress
    color := { m.color with a := floatToUChar (progress * 255) } }

/-! ## The main loop (`src/main.cpp`, lines 184-375) -/

/-- The raylib `Camera3D`. -/
structure Camera3D where
  position : Vector3
  target : Vector3
  up : Vector3
  fovy : ℚ
  projection : Int
  deriving DecidableEq, Repr

/-- The local variables of `main` that the loop reads and writes, and the number of
`rand()` calls made so far. -/
structure Scene where
  introAnimationComplete : Bool
  introAnimationTimer : ℚ
  camera : Camera3D
  finalCameraPos : Vector3
  targetCameraPos : Vector3
  menuItems : List MenuItem
  backgroundRotation : ℚ
  particleSystem : ParticleSystem
  currentItem : Int
  pulseTimer : ℚ
  pulseScale : ℚ
  backgroundAlpha : ℚ
  randCalls : Nat
  deriving Repr

/-- What one frame reads from raylib: `WindowShouldClose()`, `GetFrameTime()`,
`GetTime()` and `IsKeyPressed` for the three keys. -/
structure FrameInput where
  windowShouldClose : Bool
  frameTime : ℚ
  time : ℚ
  keyRight : Bool
  keyLeft : Bool
  keyEnter : Bool
  deriving Repr

/-- The element `menuItems[i]`.  The program only indexes inside the vector; outside
it the embedding reads a default item. -/
def itemAt (menuItems : List MenuItem) (i : Int) : MenuItem :=
  if 0 ≤ i then menuItems.getD i.toNat default else default

/-- The in-place call `menuItems[i].f()`.  The program only indexes inside the vector;
outside it the embedding leaves the vector as it is. -/
def updateItem (menuItems : List MenuItem) (i : Int) (f : MenuItem → MenuItem) :
    List MenuItem :=
  if 0 ≤ i ∧ i < menuItems.length then
    menuItems.set i.toNat (f (itemAt menuItems i))
  else
    menuItems

/-- The state of `main` on entry to the loop (lines 189-247). -/
def initialScene (sphereModel : Model) : Scene :=
  let finalCameraPos : Vector3 := ⟨0.0, 2.0, 15.0⟩
  let startX : ℚ := -(((numMenuItems - 1 : Int) : ℚ) * itemSpacing) / 2.0
  let menuItems : List MenuItem :=
    [MenuItem.ctor sphereModel ⟨startX, 0.0, 0.0⟩ "Option 1",
     MenuItem.ctor sphereModel ⟨startX + itemSpacing, 0.0, 0.0⟩ "Option 2",
     MenuItem.ctor sphereModel ⟨startX + 2 * itemSpacing, 0.0, 0.0⟩ "Option 3"]
  let currentItem : Int := 0
  { introAnimationComplete := false
    introAnimationTimer := 0.0
    camera :=
      { position := ⟨0.0, 2.0, 30.0⟩
        target := ⟨0.0, 0.0, 0.0⟩
        up := ⟨0.0, 1.0, 0.0⟩
        fovy := 45.0
        projection := 0 }
    finalCameraPos := finalCameraPos
    targetCameraPos := finalCameraPos
    menuItems := updateItem menuItems currentItem (fun m => m.SetSelected true)
    backgroundRotation := 0.0
    particleSystem := ⟨[]⟩
    currentItem := currentItem
    pulseTimer := 0.0
    pulseScale := 1.0
    backgroundAlpha := 0.0
    randCalls := 0 }

/-- The progress handed to item `i` during the intro (lines 274-278): the global
progress delayed by `0.1f` per index, each float operation rounded, then clamped below
at 0 and above at 1. -/
def itemProgress (progress : ℚ) (i : Int) : ℚ :=
  let itemProgress :=
    roundToFloat (progress - roundToFloat (roundToFloat 0.1 * roundToFloat (i : ℚ)))
  let itemProgress := if itemProgress < 0 then 0 else itemProgress
  let itemProgress := if itemProgress > 1 then 1 else itemProgress
  itemProgress

/-- The intro loop over the menu items (lines 271-281), from index `i`. -/
def introItems (progress : ℚ) : Int → List MenuItem → List MenuItem
  | _, [] => []
  | i, m :: rest => m.AnimateIntro (itemProgress progress i) :: introItems progress (i + 1) rest

/-- The intro branch of the loop body (lines 253-295). -/
def introPhase (env : Env) (inp : FrameInput) (s : Scene) : Scene :=
  if !s.introAnimationComplete then
    let introAnimationTimer := roundToFloat (s.introAnimationTimer + inp.frameTime)
    let progress := introAnimationTimer / introAnimationDuration
    let introAnimationComplete := if progress > 1.0 then true else s.introAnimationComplete
    let progress := if progress > 1.0 then 1.0 else progress
    let camera := { s.camera with
      position := Vector3Lerp ⟨0.0, 2.0, 30.0⟩ s.finalCameraPos progress }
    let menuItems := introItems progress 0 s.menuItems
    let k := s.randCalls
    let spawn : ParticleSystem × Nat :=
      if GetRandomFloat env (env.rand k) 0 1 < 0.1 ∧ progress > 0.5 then
        let randomX := GetRandomFloat env (env.rand (k + 1)) (-5.0) 5.0
        let randomY := GetRandomFloat env (env.rand (k + 2)) (-3.0) 3.0
        let color : Color :=
          ⟨GetRandomUChar (env.rand (k + 3)) 100 255, GetRandomUChar (env.rand (k + 4)) 100 255,
           255, 255⟩
        s.particleSystem.AddParticles env ⟨randomX, randomY, 0⟩ color 5 (k + 5)
      else
        (s.particleSystem, k + 1)
    { s with
      introAnimationComplete := introAnimationComplete
      introAnimationTimer := introAnimationTimer
      camera := camera
      menuItems := menuItems
      backgroundAlpha := progress
      particleSystem := spawn.1
      randCalls := spawn.2 }
  else
    s

/-- The idle loop over the menu items (lines 305-314), from index `i`. -/
def idleItems (env : Env) (backgroundRotation time : ℚ) : Int → List MenuItem → List MenuItem
  | _, [] => []
  | i, m :: rest =>
    let m := m.Update
    let m := { m with
      targetRotation := { m.targetRotation with
        y := env.sinf (backgroundRotation + (i : ℚ) * 0.5) * 0.3 } }
    let m := { m with
      targetPosition := { m.targetPosition with
        y := env.sinf (time * 0.5 + (i : ℚ)) * 0.2 } }
    m :: idleItems env backgroundRotation time (i + 1) rest

/-- The selection move shared by the two arrow keys (lines 319-328 and 333-342), to the
new index `next`: deselect the old item, select the new one, spawn 20 particles on it
and aim the camera at it. -/
def moveSelection (env : Env) (next : Int) (s : Scene) : Scene :=
  let menuItems := updateItem s.menuItems s.currentItem (fun m => m.SetSelected false)
  let currentItem := next
  let menuItems := updateItem menuItems currentItem (fun m => m.SetSelected true)
  let added :=
    s.particleSystem.AddParticles env (itemAt menuItems currentItem).position BLUE 20 s.randCalls
  { s with
    menuItems := menuItems
    currentItem := currentItem
    particleSystem := added.1
    randCalls := added.2
    targetCameraPos := { s.targetCameraPos with
      x := (itemAt menuItems currentItem).position.x * 0.5 } }

/-- The handler of `KEY_RIGHT` (lines 317-329); the index moves to
`(currentItem + 1) % numMenuItems`, with the remainder of C. -/
def pressRight (env : Env) (s : Scene) : Scene :=
  moveSelection env (Int.tmod (s.currentItem + 1) numMenuItems) s

/-- The handler of `KEY_LEFT` (lines 331-343); the index moves to
`(currentItem - 1 + numMenuItems) % numMenuItems`, with the remainder of C. -/
def pressLeft (env : Env) (s : Scene) : Scene :=
  moveSelection env (Int.tmod (s.currentItem - 1 + numMenuItems) numMenuItems) s

/-- The handler of `KEY_ENTER` (lines 345-368); the flag is `true` when the handler leaves
the loop by `break` (the exit item), before the particles are added. -/
def pressEnter (env : Env) (s : Scene) : Scene × Bool :=
  if s.currentItem = 2 then
    (s, true)
  else
    let added :=
      s.particleSystem.AddParticles env (itemAt s.menuItems s.currentItem).position GOLD 50
        s.randCalls
    ({ s with particleSystem := added.1, randCalls := added.2 }, false)

/-- The idle branch of the loop body (lines 298-372); the flag is `true` when the body
is left by `break`. -/
def idlePhase (env : Env) (inp : FrameInput) (s : Scene) : Scene × Bool :=
  let backgroundRotation := roundToFloat (s.backgroundRotation + roundToFloat 0.005)
  let pulseTimer := roundToFloat (s.pulseTimer + inp.frameTime)
  let pulseScale := 1.0 + 0.05 * env.sinf (pulseTimer * 2.0)
  let s := { s with
    backgroundRotation := backgroundRotation
    pulseTimer := pulseTimer
    pulseScale := pulseScale
    menuItems := idleItems env backgroundRotation inp.time 0 s.menuItems }
  let s := if inp.keyRight then pressRight env s else s
  let s := if inp.keyLeft then pressLeft env s else s
  let r := if inp.keyEnter then pressEnter env s else (s, false)
  if r.2 then
    r
  else
    let s := r.1
    ({ s with camera := { s.camera with
        position := Vector3Lerp s.camera.position s.targetCameraPos 0.05 } }, false)

/-- The update half of one pass through the loop body (lines 253-375); the flag is `true`
when the body is left by `break`, which skips the particle update. -/
def frame (env : Env) (inp : FrameInput) (s : Scene) : Scene × Bool :=
  let s := introPhase env inp s
  let r := if s.introAnimationComplete then idlePhase env inp s else (s, false)
  if r.2 then
    r
  else
    let s := r.1
    ({ s with particleSystem := s.particleSystem.Update inp.frameTime }, false)

/-- The scenes at the end of each pass of the main loop (line 250 on), one per frame
input, until the inputs end, `WindowShouldClose()` holds or a pass takes `break`. -/
def mainLoop (env : Env) : List FrameInput → Scene → List Scene
  | [], _ => []
  | inp :: rest, s =>
    if inp.windowShouldClose then
      []
    else
      let r := frame env inp s
      if r.2 then [r.1] else r.1 :: mainLoop env rest r.1

/-! ## Auxiliary views used in the proofs -/

/-- One `Update` seen on the bare particle list: step all, keep the live ones. -/
def stepList (frameTime : ℚ) (l : List Particle) : List Particle :=
  (l.map (Particle.advance frameTime)).filter (fun p => !p.dead)

/-- Successive `Update`s seen on the bare particle list. -/
def stepsList (frameTimes : List ℚ) (l : List Particle) : List Particle :=
  frameTimes.foldl (fun l d => stepList d l) l

/-- A sample environment: `RAND_MAX = 32767`, a `rand()` that always returns 0 and a
`sinf` that is constantly 0. -/
def sampleEnv : Env := ⟨32767, fun _ => 0, fun _ => 0⟩

/-- The particle that `AddParticles` creates at the origin in the sample environment. -/
def sampleParticle : Particle :=
  { position := ⟨0, 0, 0⟩
    velocity :=
      ⟨GetRandomFloat sampleEnv 0 (-0.05) 0.05, GetRandomFloat sampleEnv 0 0.01 0.05,
       GetRandomFloat sampleEnv 0 (-0.05) 0.05⟩
    color := BLUE
    size := GetRandomFloat sampleEnv 0 0.05 0.15
    lifeTime := 0
    maxLifeTime := GetRandomFloat sampleEnv 0 1 2 }

/-- The life time that `Update`s with the given frame times accumulate from `lifeTime`:
each `lifeTime += dt` of line 160 stores the float nearest the sum. -/
def lifeTimeAfter (lifeTime : ℚ) (frameTimes : List ℚ) : ℚ :=
  frameTimes.foldl (fun l d => roundToFloat (l + d)) lifeTime

/-- A particle stepped by `Update` once for each of the frame times, as long as it is not
removed. -/
def Particle.advanceMany (frameTimes : List ℚ) (p : Particle) : Particle :=
  frameTimes.foldl (fun q d => q.advance d) p

/-- The frame time of 60 frames per second: the float nearest 1/60. -/
def sixtieth : ℚ := roundToFloat (1 / 60)

/-- An environment whose `rand()` always returns `RAND_MAX = 32767`. -/
def fullEnv : Env := ⟨32767, fun _ => 32767, fun _ => 0⟩

/-- The particle that `AddParticles` creates at the origin when `rand()` returns `RAND_MAX`:
its maximum life time is 2. -/
def longestParticle : Particle :=
  { position := ⟨0, 0, 0⟩
    velocity :=
      ⟨GetRandomFloat fullEnv 32767 (-0.05) 0.05, GetRandomFloat fullEnv 32767 0.01 0.05,
       GetRandomFloat fullEnv 32767 (-0.05) 0.05⟩
    color := BLUE
    size := GetRandomFloat fullEnv 32767 0.05 0.15
    lifeTime := 0
    maxLifeTime := GetRandomFloat fullEnv 32767 1 2 }

/-- The first menu item of `main` as constructed, before it is selected. -/
def sampleItem : MenuItem :=
  MenuItem.ctor ⟨0⟩ ⟨-5, 0, 0⟩ "Option 1"

/-- A menu item at rest: every current value equals its target. -/
def restingItem : MenuItem :=
  { sampleItem with
    position := sampleItem.targetPosition
    rotation := sampleItem.targetRotation
    scale := sampleItem.targetScale
    color := sampleItem.targetColor }

/-- A menu item whose red channel (71) is 9 below its target (80), the rest at target. -/
def stalledItem : MenuItem :=
  { sampleItem with color := ⟨71, 80, 80, 255⟩ }

/-- A frame of two seconds with no key pressed. -/
def slowFrame : FrameInput := ⟨false, 2, 0, false, false, false⟩

/-- A frame of 1/60 second in which only the right arrow key is pressed. -/
def rightFrame : FrameInput := ⟨false, 1 / 60, 0, true, false, false⟩

/-- A frame of 1/60 second in which only the left arrow key is pressed. -/
def leftFrame : FrameInput := ⟨false, 1 / 60, 0, false, true, false⟩

/-! ## Properties of the rounding to binary32 -/

theorem roundNearestEven_of_abs_lt (t : ℚ) (n : Int) (h : |t - n| < 1 / 2) :
    roundNearestEven t = n := by
  rw [abs_lt] at h
  unfold roundNearestEven
  by_cases hge : (n : ℚ) ≤ t
  · have hf : ⌊t⌋ = n := by
      rw [Int.floor_eq_iff]
      constructor <;> linarith [h.1, h.2]
    rw [hf, if_pos (by linarith [h.2])]
  · push_neg at hge
    have hf : ⌊t⌋ = n - 1 := by
      rw [Int.floor_eq_iff]
      push_cast
      constructor <;> linarith [h.1, h.2]
    rw [hf]
    push_cast
    rw [if_neg (by linarith [h.1]), if_pos (by linarith [h.1])]
    ring

theorem roundNearestEven_of_tie (t : ℚ) (n : Int) (h : |t - n| = 1 / 2) (he : n % 2 = 0) :
    roundNearestEven t = n := by
  unfold roundNearestEven
  rcases abs_eq (by norm_num : (0 : ℚ) ≤ 1 / 2) |>.mp h with h1 | h1
  · have hf : ⌊t⌋ = n := by
      rw [Int.floor_eq_iff]
      constructor <;> linarith
    rw [hf, if_neg (by linarith), if_neg (by linarith), if_pos he]
  · have hf : ⌊t⌋ = n - 1 := by
      rw [Int.floor_eq_iff]
      push_cast
      constructor <;> linarith
    rw [hf]
    push_cast
    rw [if_neg (by linarith), if_neg (by linarith), if_neg (by omega)]
    ring

theorem roundNearestEven_intCast (n : Int) : roundNearestEven (n : ℚ) = n :=
  roundNearestEven_of_abs_lt _ n (by simp)

theorem roundNearestEven_bounds (t : ℚ) :
    (⌊t⌋ : ℚ) ≤ roundNearestEven t ∧ (roundNearestEven t : ℚ) ≤ ⌊t⌋ + 1
      ∧ (t - ⌊t⌋ < 1 / 2 → roundNearestEven t = ⌊t⌋)
      ∧ (1 / 2 < t - ⌊t⌋ → roundNearestEven t = ⌊t⌋ + 1) := by
  unfold roundNearestEven
  refine ⟨?_, ?_, ?_, ?_⟩
  · split_ifs <;> push_cast <;> linarith
  · split_ifs <;> push_cast <;> linarith
  · intro h; rw [if_pos h]
  · intro h; rw [if_neg (by linarith), if_pos h]

theorem roundNearestEven_mono (x y : ℚ) (h : x ≤ y) :
    roundNearestEven x ≤ roundNearestEven y := by
  have hx := roundNearestEven_bounds x
  have hy := roundNearestEven_bounds y
  have hfl : ⌊x⌋ ≤ ⌊y⌋ := Int.floor_le_floor h
  rcases lt_or_eq_of_le hfl with hlt | heq
  · have h1 : (roundNearestEven x : ℚ) ≤ (roundNearestEven y : ℚ) := by
      have : (⌊x⌋ : ℚ) + 1 ≤ (⌊y⌋ : ℚ) := by exact_mod_cast hlt
      linarith [hx.2.1, hy.1]
    exact_mod_cast h1
  · unfold roundNearestEven
    rw [heq]
    have hxy : x - ⌊y⌋ ≤ y - ⌊y⌋ := by linarith
    split_ifs <;> first | omega | (exfalso; linarith)

theorem two_zpow_pos (k : Int) : (0 : ℚ) < 2 ^ k := zpow_pos (by norm_num) k

theorem log_two_bounds (x : ℚ) (hx : 0 < x) :
    (2 : ℚ) ^ Int.log 2 x ≤ x ∧ x < (2 : ℚ) ^ (Int.log 2 x + 1) := by
  have h1 := Int.zpow_log_le_self (b := 2) (r := x) (by norm_num) hx
  have h2 := Int.lt_zpow_succ_log_self (b := 2) (by norm_num) x
  exact ⟨by exact_mod_cast h1, by exact_mod_cast h2⟩

theorem log_two_eq_of_bounds (x : ℚ) (k : Int) (h1 : (2 : ℚ) ^ k ≤ x) (h2 : x < (2 : ℚ) ^ (k + 1)) :
    Int.log 2 x = k := by
  have hx : 0 < x := lt_of_lt_of_le (two_zpow_pos k) h1
  have a := (Int.zpow_le_iff_le_log (b := 2) (x := k) (r := x) (by norm_num) hx).mp
    (by exact_mod_cast h1)
  have b := (Int.lt_zpow_iff_log_lt (b := 2) (x := k + 1) (r := x) (by norm_num) hx).mp
    (by exact_mod_cast h2)
  omega

theorem log_two_lt_of_lt (x : ℚ) (k : Int) (hx : 0 < x) (h : x < (2 : ℚ) ^ k) :
    Int.log 2 x < k :=
  (Int.lt_zpow_iff_log_lt (b := 2) (x := k) (r := x) (by norm_num) hx).mp (by exact_mod_cast h)

theorem lt_of_log_two_lt (x : ℚ) (k : Int) (hx : 0 < x) (h : Int.log 2 x < k) :
    x < (2 : ℚ) ^ k := by
  have := (Int.lt_zpow_iff_log_lt (b := 2) (x := k) (r := x) (by norm_num) hx).mpr h
  exact_mod_cast this

theorem ulpExponent_of_pos (x : ℚ) (hx : 0 < x) :
    ulpExponent x = max (Int.log 2 x - 23) (-149) := by
  unfold ulpExponent
  rw [abs_of_pos hx]

theorem ulpExponent_ge (x : ℚ) : -149 ≤ ulpExponent x := le_max_right _ _

theorem ulpExponent_mono (x y : ℚ) (hx : 0 < x) (h : x ≤ y) : ulpExponent x ≤ ulpExponent y := by
  rw [ulpExponent_of_pos x hx, ulpExponent_of_pos y (lt_of_lt_of_le hx h)]
  have := Int.log_mono_right (b := 2) hx h
  exact max_le_max (by omega) (le_refl _)

theorem two_pow_toNat_cast (m : Int) (hm : 0 ≤ m) :
    (((2 : Int) ^ m.toNat : Int) : ℚ) = (2 : ℚ) ^ m := by
  push_cast
  rw [← zpow_natCast, Int.toNat_of_nonneg hm]

theorem two_zpow_div (k e : Int) : (2 : ℚ) ^ k / 2 ^ e = 2 ^ (k - e) := by
  rw [zpow_sub₀ (by norm_num : (2 : ℚ) ≠ 0)]

theorem two_zpow_mul_cancel (k e : Int) : (2 : ℚ) ^ (k - e) * 2 ^ e = 2 ^ k := by
  rw [← zpow_add₀ (by norm_num : (2 : ℚ) ≠ 0)]
  congr 1
  ring

theorem le_roundMagnitude_of_pow (y : ℚ) (k : Int) (hk : (2 : ℚ) ^ k ≤ y)
    (he : ulpExponent y ≤ k) : (2 : ℚ) ^ k ≤ roundMagnitude y := by
  unfold roundMagnitude
  have hpos := two_zpow_pos (ulpExponent y)
  have h1 : (((2 : Int) ^ (k - ulpExponent y).toNat : Int) : ℚ) ≤ y / 2 ^ ulpExponent y := by
    rw [two_pow_toNat_cast _ (by omega), ← two_zpow_div]
    exact div_le_div_of_nonneg_right hk (le_of_lt hpos)
  have h2 := roundNearestEven_mono _ _ h1
  rw [roundNearestEven_intCast] at h2
  have h3 : (((2 : Int) ^ (k - ulpExponent y).toNat : Int) : ℚ)
      ≤ (roundNearestEven (y / 2 ^ ulpExponent y) : ℚ) := by exact_mod_cast h2
  rw [two_pow_toNat_cast _ (by omega)] at h3
  calc (2 : ℚ) ^ k = 2 ^ (k - ulpExponent y) * 2 ^ ulpExponent y := (two_zpow_mul_cancel _ _).symm
    _ ≤ _ := mul_le_mul_of_nonneg_right h3 (le_of_lt hpos)

theorem roundMagnitude_le_of_pow (x : ℚ) (k : Int) (hk : x ≤ (2 : ℚ) ^ k)
    (he : ulpExponent x ≤ k) : roundMagnitude x ≤ (2 : ℚ) ^ k := by
  unfold roundMagnitude
  have hpos := two_zpow_pos (ulpExponent x)
  have h1 : x / 2 ^ ulpExponent x ≤ (((2 : Int) ^ (k - ulpExponent x).toNat : Int) : ℚ) := by
    rw [two_pow_toNat_cast _ (by omega), ← two_zpow_div]
    exact div_le_div_of_nonneg_right hk (le_of_lt hpos)
  have h2 := roundNearestEven_mono _ _ h1
  rw [roundNearestEven_intCast] at h2
  have h3 : (roundNearestEven (x / 2 ^ ulpExponent x) : ℚ)
      ≤ (((2 : Int) ^ (k - ulpExponent x).toNat : Int) : ℚ) := by exact_mod_cast h2
  rw [two_pow_toNat_cast _ (by omega)] at h3
  calc _ ≤ (2 : ℚ) ^ (k - ulpExponent x) * 2 ^ ulpExponent x :=
        mul_le_mul_of_nonneg_right h3 (le_of_lt hpos)
    _ = 2 ^ k := two_zpow_mul_cancel _ _

theorem roundMagnitude_zero : roundMagnitude 0 = 0 := by
  unfold roundMagnitude
  simp [roundNearestEven_intCast 0, roundNearestEven]

theorem roundMagnitude_nonneg (x : ℚ) (hx : 0 ≤ x) : 0 ≤ roundMagnitude x := by
  unfold roundMagnitude
  have hpos := two_zpow_pos (ulpExponent x)
  have h1 : ((0 : Int) : ℚ) ≤ x / 2 ^ ulpExponent x := by
    push_cast
    exact div_nonneg hx (le_of_lt hpos)
  have h2 := roundNearestEven_mono _ _ h1
  rw [roundNearestEven_intCast] at h2
  have h3 : (0 : ℚ) ≤ (roundNearestEven (x / 2 ^ ulpExponent x) : ℚ) := by exact_mod_cast h2
  exact mul_nonneg h3 (le_of_lt hpos)

theorem roundMagnitude_mono (x y : ℚ) (hx : 0 ≤ x) (h : x ≤ y) :
    roundMagnitude x ≤ roundMagnitude y := by
  rcases eq_or_lt_of_le hx with h0 | hxpos
  · rw [← h0, roundMagnitude_zero]
    exact roundMagnitude_nonneg y (le_trans hx h)
  have hypos : 0 < y := lt_of_lt_of_le hxpos h
  have hle := ulpExponent_mono x y hxpos h
  rcases eq_or_lt_of_le hle with heq | hlt
  · unfold roundMagnitude
    rw [heq]
    have hpos := two_zpow_pos (ulpExponent y)
    have h1 : x / 2 ^ ulpExponent y ≤ y / 2 ^ ulpExponent y :=
      div_le_div_of_nonneg_right h (le_of_lt hpos)
    have h2 : (roundNearestEven (x / 2 ^ ulpExponent y) : ℚ)
        ≤ (roundNearestEven (y / 2 ^ ulpExponent y) : ℚ) := by
      exact_mod_cast roundNearestEven_mono _ _ h1
    exact mul_le_mul_of_nonneg_right h2 (le_of_lt hpos)
  · have ex := ulpExponent_of_pos x hxpos
    have ey := ulpExponent_of_pos y hypos
    have hx149 := ulpExponent_ge x
    have hey : ulpExponent y = Int.log 2 y - 23 := by
      rw [ey] at hlt ⊢
      rcases max_cases (Int.log 2 y - 23) (-149) with ⟨h1, _⟩ | ⟨h1, _⟩
      · exact h1
      · rw [h1] at hlt; omega
    have hlx : Int.log 2 x < Int.log 2 y := by
      have : Int.log 2 x - 23 ≤ ulpExponent x := by rw [ex]; exact le_max_left _ _
      omega
    have hxlt : x < (2 : ℚ) ^ Int.log 2 y := lt_of_log_two_lt x _ hxpos hlx
    have hyge : (2 : ℚ) ^ Int.log 2 y ≤ y := (log_two_bounds y hypos).1
    exact le_trans (roundMagnitude_le_of_pow x _ (le_of_lt hxlt) (by omega))
      (le_roundMagnitude_of_pow y _ hyge (by omega))

theorem ulpExponent_normal (x : ℚ) (k : Int) (h1 : (2 : ℚ) ^ k ≤ x) (h2 : x < (2 : ℚ) ^ (k + 1))
    (hk : -126 ≤ k) : ulpExponent x = k - 23 := by
  have hx : 0 < x := lt_of_lt_of_le (two_zpow_pos k) h1
  rw [ulpExponent_of_pos x hx, log_two_eq_of_bounds x k h1 h2]
  exact max_eq_left (by omega)

theorem ulpExponent_subnormal (x : ℚ) (hx : 0 < x) (h : x < (2 : ℚ) ^ (-126 : Int)) :
    ulpExponent x = -149 := by
  rw [ulpExponent_of_pos x hx]
  have := log_two_lt_of_lt x _ hx h
  exact max_eq_right (by omega)

/-- A value `n * 2^e` with a 24-bit significand `n` and an exponent in the binary32 range
is a float: rounding returns it. -/
theorem roundMagnitude_representable (n e : Int) (he : -149 ≤ e) (hn0 : 0 < n)
    (hn2 : n < 2 ^ 24) (hnorm : 2 ^ 23 ≤ n ∨ e = -149) :
    roundMagnitude ((n : ℚ) * 2 ^ e) = (n : ℚ) * 2 ^ e := by
  have hpos := two_zpow_pos e
  have hnq : (0 : ℚ) < (n : ℚ) := by exact_mod_cast hn0
  have hn2q : (n : ℚ) < 2 ^ 24 := by exact_mod_cast hn2
  have hv : 0 < (n : ℚ) * 2 ^ e := mul_pos hnq hpos
  have hulp : ulpExponent ((n : ℚ) * 2 ^ e) = e := by
    by_cases hbig : 2 ^ 23 ≤ n
    · have hbq : (2 : ℚ) ^ 23 ≤ (n : ℚ) := by exact_mod_cast hbig
      have a : (2 : ℚ) ^ (e + 23) ≤ (n : ℚ) * 2 ^ e := by
        rw [zpow_add₀ (by norm_num : (2 : ℚ) ≠ 0), mul_comm ((2 : ℚ) ^ e)]
        exact mul_le_mul_of_nonneg_right (by exact_mod_cast hbq) (le_of_lt hpos)
      have b : (n : ℚ) * 2 ^ e < (2 : ℚ) ^ (e + 23 + 1) := by
        rw [show e + 23 + 1 = e + 24 by ring, zpow_add₀ (by norm_num : (2 : ℚ) ≠ 0),
          mul_comm ((2 : ℚ) ^ e)]
        exact mul_lt_mul_of_pos_right (by exact_mod_cast hn2q) hpos
      rw [ulpExponent_normal _ (e + 23) a b (by omega)]
      ring
    · have he149 : e = -149 := by
        rcases hnorm with h | h
        · exact absurd h hbig
        · exact h
      push_neg at hbig
      have hsq : (n : ℚ) < 2 ^ 23 := by exact_mod_cast hbig
      have c : (n : ℚ) * 2 ^ e < (2 : ℚ) ^ (-126 : Int) := by
        have : (2 : ℚ) ^ (-126 : Int) = 2 ^ (23 : Int) * 2 ^ e := by
          rw [he149, ← zpow_add₀ (by norm_num : (2 : ℚ) ≠ 0)]
          norm_num
        rw [this]
        exact mul_lt_mul_of_pos_right (by exact_mod_cast hsq) hpos
      rw [ulpExponent_subnormal _ hv c, he149]
  unfold roundMagnitude
  rw [hulp, mul_div_assoc, div_self (ne_of_gt hpos), mul_one, roundNearestEven_intCast]

theorem roundMagnitude_idem (x : ℚ) (hx : 0 ≤ x) :
    roundMagnitude (roundMagnitude x) = roundMagnitude x := by
  rcases eq_or_lt_of_le hx with h0 | hxpos
  · rw [← h0, roundMagnitude_zero, roundMagnitude_zero]
  have hpos := two_zpow_pos (ulpExponent x)
  have hb := log_two_bounds x hxpos
  have hex := ulpExponent_of_pos x hxpos
  have he149 := ulpExponent_ge x
  have hge : Int.log 2 x - 23 ≤ ulpExponent x := by rw [hex]; exact le_max_left _ _
  have hn0 : 0 ≤ roundNearestEven (x / 2 ^ ulpExponent x) := by
    have h1 : ((0 : Int) : ℚ) ≤ x / 2 ^ ulpExponent x := by
      push_cast
      exact div_nonneg hx (le_of_lt hpos)
    have h2 := roundNearestEven_mono _ _ h1
    rwa [roundNearestEven_intCast] at h2
  have hn24 : roundNearestEven (x / 2 ^ ulpExponent x) ≤ 2 ^ 24 := by
    have h1 : x / 2 ^ ulpExponent x ≤ (((2 : Int) ^ 24 : Int) : ℚ) := by
      rw [div_le_iff₀ hpos]
      have h3 : (2 : ℚ) ^ (Int.log 2 x + 1) ≤ (2 : ℚ) ^ (24 : Int) * 2 ^ ulpExponent x := by
        rw [← zpow_add₀ (by norm_num : (2 : ℚ) ≠ 0)]
        exact zpow_le_zpow_right₀ (by norm_num) (by omega)
      push_cast
      have h4 : (2 : ℚ) ^ (24 : Int) = 2 ^ 24 := by norm_num
      rw [h4] at h3
      linarith [hb.2]
    have h2 := roundNearestEven_mono _ _ h1
    rwa [roundNearestEven_intCast] at h2
  have hnorm : 2 ^ 23 ≤ roundNearestEven (x / 2 ^ ulpExponent x) ∨ ulpExponent x = -149 := by
    rcases max_cases (Int.log 2 x - 23) (-149) with ⟨h1, _⟩ | ⟨h1, _⟩
    · left
      have he : ulpExponent x = Int.log 2 x - 23 := by rw [hex, h1]
      have h2 : (((2 : Int) ^ 23 : Int) : ℚ) ≤ x / 2 ^ ulpExponent x := by
        rw [le_div_iff₀ hpos, he]
        have h4 : (((2 : Int) ^ 23 : Int) : ℚ) * 2 ^ (Int.log 2 x - 23) = 2 ^ Int.log 2 x := by
          have := two_zpow_mul_cancel (Int.log 2 x) (Int.log 2 x - 23)
          rw [show Int.log 2 x - (Int.log 2 x - 23) = (23 : Int) by ring] at this
          rw [← this]
          norm_num
        rw [h4]
        exact hb.1
      have h3 := roundNearestEven_mono _ _ h2
      rwa [roundNearestEven_intCast] at h3
    · right
      rw [hex, h1]
  rcases eq_or_lt_of_le hn0 with hz | hnpos
  · have : roundMagnitude x = 0 := by
      unfold roundMagnitude
      rw [← hz]
      simp
    rw [this, roundMagnitude_zero]
  rcases eq_or_lt_of_le hn24 with h24 | hlt24
  · have hval : roundMagnitude x = ((2 ^ 23 : Int) : ℚ) * 2 ^ (ulpExponent x + 1) := by
      unfold roundMagnitude
      rw [h24, zpow_add₀ (by norm_num : (2 : ℚ) ≠ 0)]
      push_cast
      ring
    rw [hval]
    exact roundMagnitude_representable _ _ (by omega) (by norm_num) (by norm_num)
      (Or.inl (le_refl _))
  · have hval : roundMagnitude x
        = (roundNearestEven (x / 2 ^ ulpExponent x) : ℚ) * 2 ^ ulpExponent x := rfl
    rw [hval]
    exact roundMagnitude_representable _ _ he149 hnpos hlt24 hnorm

/-! ### The rounding on all rationals -/

theorem roundToFloat_of_nonneg (x : ℚ) (hx : 0 ≤ x) : roundToFloat x = roundMagnitude x := by
  simp [roundToFloat, hx]

theorem roundToFloat_zero : roundToFloat 0 = 0 := by
  rw [roundToFloat_of_nonneg 0 (le_refl _), roundMagnitude_zero]

theorem roundToFloat_nonneg (x : ℚ) (hx : 0 ≤ x) : 0 ≤ roundToFloat x := by
  rw [roundToFloat_of_nonneg x hx]
  exact roundMagnitude_nonneg x hx

theorem roundToFloat_nonpos (x : ℚ) (hx : x ≤ 0) : roundToFloat x ≤ 0 := by
  rcases eq_or_lt_of_le hx with h0 | hneg
  · rw [h0, roundToFloat_zero]
  · have : roundToFloat x = -roundMagnitude (-x) := by
      simp [roundToFloat, not_le.mpr hneg]
    rw [this]
    linarith [roundMagnitude_nonneg (-x) (by linarith)]

/-- Rounding to binary32 is monotone. -/
theorem roundToFloat_mono (x y : ℚ) (h : x ≤ y) : roundToFloat x ≤ roundToFloat y := by
  by_cases hx : 0 ≤ x
  · rw [roundToFloat_of_nonneg x hx, roundToFloat_of_nonneg y (le_trans hx h)]
    exact roundMagnitude_mono x y hx h
  · push_neg at hx
    by_cases hy : 0 ≤ y
    · exact le_trans (roundToFloat_nonpos x (le_of_lt hx)) (roundToFloat_nonneg y hy)
    · push_neg at hy
      have ex : roundToFloat x = -roundMagnitude (-x) := by
        simp [roundToFloat, not_le.mpr hx]
      have ey : roundToFloat y = -roundMagnitude (-y) := by
        simp [roundToFloat, not_le.mpr hy]
      rw [ex, ey]
      have := roundMagnitude_mono (-y) (-x) (by linarith) (by linarith)
      linarith

/-- Rounding a float again returns it. -/
theorem roundToFloat_idem (x : ℚ) : roundToFloat (roundToFloat x) = roundToFloat x := by
  by_cases hx : 0 ≤ x
  · rw [roundToFloat_of_nonneg x hx,
      roundToFloat_of_nonneg _ (roundMagnitude_nonneg x hx), roundMagnitude_idem x hx]
  · push_neg at hx
    have ex : roundToFloat x = -roundMagnitude (-x) := by
      simp [roundToFloat, not_le.mpr hx]
    have hm := roundMagnitude_nonneg (-x) (by linarith)
    rw [ex]
    rcases eq_or_lt_of_le hm with h0 | hpos
    · rw [← h0]
      simp [roundToFloat_zero]
    · have : roundToFloat (-roundMagnitude (-x)) = -roundMagnitude (- -roundMagnitude (-x)) := by
        simp [roundToFloat, not_le.mpr (by linarith : -roundMagnitude (-x) < 0)]
      rw [this, neg_neg, roundMagnitude_idem (-x) (by linarith)]

/-- Evaluation of the rounding at a positive rational in the normal range: with binary
exponent `k` and the significand `n` nearest to `x / 2^(k-23)`. -/
theorem roundToFloat_eval (x : ℚ) (k n : Int) (hk : -126 ≤ k) (h1 : (2 : ℚ) ^ k ≤ x)
    (h2 : x < (2 : ℚ) ^ (k + 1)) (hn : roundNearestEven (x / 2 ^ (k - 23)) = n) :
    roundToFloat x = (n : ℚ) * 2 ^ (k - 23) := by
  have hx : 0 < x := lt_of_lt_of_le (two_zpow_pos k) h1
  rw [roundToFloat_of_nonneg x (le_of_lt hx)]
  unfold roundMagnitude
  rw [ulpExponent_normal x k h1 h2 hk, hn]

/-! ## Properties of the particle system -/

theorem Update_loop_append (frameTime : ℚ) (rest done : List Particle) :
    ParticleSystem.Update.loop frameTime (done.length : Int) (done ++ rest)
      = done ++ ((rest.map (Particle.advance frameTime)).filter (fun p => !p.dead)) := by
  induction rest generalizing done with
  | nil =>
    rw [ParticleSystem.Update.loop]
    simp
  | cons p r ih =>
    rw [ParticleSystem.Update.loop]
    have hg : 0 ≤ (done.length : Int) ∧ (done.length : Int) < ((done ++ p :: r).length : Int) := by
      constructor
      · omega
      · simp
    rw [dif_pos hg]
    simp only [Int.toNat_ofNat]
    have hget : (done ++ p :: r)[done.length] = p := by
      rw [List.getElem_append_right (le_refl _)]; simp
    have hset : (done ++ p :: r).set done.length (p.advance frameTime)
        = done ++ p.advance frameTime :: r := by
      rw [List.set_append_right _ _ (le_refl _)]; simp
    simp only [hget, hset]
    have hget1 : (done ++ p.advance frameTime :: r)[done.length] = p.advance frameTime := by
      rw [List.getElem_append_right (le_refl _)]; simp
    simp only [hget1]
    by_cases hd : (p.advance frameTime).dead = true
    · rw [if_pos hd]
      have herase : (done ++ p.advance frameTime :: r).eraseIdx done.length = done ++ r := by
        rw [List.eraseIdx_append_of_length_le (le_refl _)]
        simp
      rw [herase, Int.sub_add_cancel, ih done]
      simp [List.filter_cons, hd]
    · rw [if_neg hd]
      have happ : done ++ p.advance frameTime :: r = (done ++ [p.advance frameTime]) ++ r := by
        simp
      have hlen : (done.length : Int) + 1 = ((done ++ [p.advance frameTime]).length : Int) := by
        simp
      rw [happ, hlen, ih (done ++ [p.advance frameTime])]
      simp [List.filter_cons, hd]

theorem Update_particles (frameTime : ℚ) (ps : ParticleSystem) :
    (ps.Update frameTime).particles
      = (ps.particles.map (Particle.advance frameTime)).filter (fun p => !p.dead) := by
  have h := Update_loop_append frameTime ps.particles []
  simpa [ParticleSystem.Update] using h

/-- C1: `ParticleSystem::Update`, the in-place loop that erases at index `i` and steps the
index back, yields for every particle list and every frame time exactly the list got
by stepping each particle once in order and then dropping those whose life time has
reached the maximum, the survivors in their original order. -/
theorem C1_Update_eq_UpdateByRetain (frameTime : ℚ) (ps : ParticleSystem) :
    ps.Update frameTime = ps.UpdateByRetain frameTime := by
  have h := Update_particles frameTime ps
  cases ps with
  | mk particles =>
    simp only [ParticleSystem.Update, ParticleSystem.UpdateByRetain, ParticleSystem.mk.injEq]
    simp only [ParticleSystem.Update] at h
    rw [h]
    apply List.filter_congr
    intro p _
    by_cases hp : p.maxLifeTime ≤ p.lifeTime <;> simp [Particle.dead, hp]

theorem UpdateMany_particles (frameTimes : List ℚ) (ps : ParticleSystem) :
    (ps.UpdateMany frameTimes).particles = stepsList frameTimes ps.particles := by
  induction frameTimes generalizing ps with
  | nil => rfl
  | cons d ds ih =>
    have h : ps.UpdateMany (d :: ds) = (ps.Update d).UpdateMany ds := rfl
    rw [h, ih, Update_particles]
    rfl

theorem stepList_append (d : ℚ) (l1 l2 : List Particle) :
    stepList d (l1 ++ l2) = stepList d l1 ++ stepList d l2 := by
  simp [stepList]

theorem stepsList_append (ds : List ℚ) (l1 l2 : List Particle) :
    stepsList ds (l1 ++ l2) = stepsList ds l1 ++ stepsList ds l2 := by
  induction ds generalizing l1 l2 with
  | nil => rfl
  | cons d ds ih =>
    simp only [stepsList, List.foldl_cons] at ih ⊢
    rw [stepList_append, ih]

theorem stepsList_nil (ds : List ℚ) : stepsList ds [] = [] := by
  induction ds with
  | nil => rfl
  | cons d ds ih => simpa [stepsList, stepList] using ih

theorem advance_lifeTime (d : ℚ) (p : Particle) :
    (p.advance d).lifeTime = roundToFloat (p.lifeTime + d) := rfl

theorem advance_maxLifeTime (d : ℚ) (p : Particle) : (p.advance d).maxLifeTime = p.maxLifeTime :=
  rfl

theorem stepList_singleton (d : ℚ) (p : Particle) :
    stepList d [p]
      = if p.maxLifeTime ≤ roundToFloat (p.lifeTime + d) then [] else [p.advance d] := by
  by_cases h : p.maxLifeTime ≤ roundToFloat (p.lifeTime + d)
  · simp [stepList, Particle.dead, advance_lifeTime, advance_maxLifeTime, h]
  · simp [stepList, Particle.dead, advance_lifeTime, advance_maxLifeTime, h]

theorem stepsList_cons (d : ℚ) (ds : List ℚ) (l : List Particle) :
    stepsList (d :: ds) l = stepsList ds (stepList d l) := rfl

theorem stepsList_concat (ds1 ds2 : List ℚ) (l : List Particle) :
    stepsList (ds1 ++ ds2) l = stepsList ds2 (stepsList ds1 l) := by
  simp [stepsList, List.foldl_append]

theorem lifeTimeAfter_cons (l d : ℚ) (ds : List ℚ) :
    lifeTimeAfter l (d :: ds) = lifeTimeAfter (roundToFloat (l + d)) ds := rfl

theorem advanceMany_cons (d : ℚ) (ds : List ℚ) (p : Particle) :
    p.advanceMany (d :: ds) = (p.advance d).advanceMany ds := rfl

theorem advanceMany_lifeTime (ds : List ℚ) (p : Particle) :
    (p.advanceMany ds).lifeTime = lifeTimeAfter p.lifeTime ds
      ∧ (p.advanceMany ds).maxLifeTime = p.maxLifeTime := by
  induction ds generalizing p with
  | nil => exact ⟨rfl, rfl⟩
  | cons d ds ih =>
    rw [advanceMany_cons, lifeTimeAfter_cons]
    have := ih (p.advance d)
    rw [advance_lifeTime, advance_maxLifeTime] at this
    exact this

/-- A particle whose float-accumulated life time has reached its maximum after the given
`Update`s (at least one) has been removed by them. -/
theorem stepsList_singleton_expired (ds : List ℚ) (p : Particle) (hne : ds ≠ [])
    (hsum : p.maxLifeTime ≤ lifeTimeAfter p.lifeTime ds) : stepsList ds [p] = [] := by
  induction ds generalizing p with
  | nil => exact absurd rfl hne
  | cons d ds ih =>
    rw [stepsList_cons, stepList_singleton]
    by_cases h : p.maxLifeTime ≤ roundToFloat (p.lifeTime + d)
    · rw [if_pos h, stepsList_nil]
    · rw [if_neg h]
      have hds : ds ≠ [] := by
        intro h0
        subst h0
        exact h hsum
      apply ih _ hds
      rw [advance_lifeTime, advance_maxLifeTime]
      exact hsum

/-- With frame times that are not negative the float-accumulated life time does not
decrease, and it is a float. -/
theorem lifeTimeAfter_ge (ds : List ℚ) (l : ℚ) (hl : roundToFloat l = l)
    (hnn : ∀ d ∈ ds, 0 ≤ d) :
    l ≤ lifeTimeAfter l ds ∧ roundToFloat (lifeTimeAfter l ds) = lifeTimeAfter l ds := by
  induction ds generalizing l with
  | nil => exact ⟨le_refl _, hl⟩
  | cons d ds ih =>
    rw [lifeTimeAfter_cons]
    have hd : 0 ≤ d := hnn d (by simp)
    have h1 : l ≤ roundToFloat (l + d) := by
      have := roundToFloat_mono l (l + d) (by linarith)
      rwa [hl] at this
    have h2 := ih (roundToFloat (l + d)) (roundToFloat_idem _)
      (fun x hx => hnn x (List.mem_cons_of_mem _ hx))
    exact ⟨le_trans h1 h2.1, h2.2⟩

/-- A particle whose float-accumulated life time stays below its maximum is kept by the
`Update`s, stepped once by each. -/
theorem stepsList_singleton_survives (ds : List ℚ) (p : Particle)
    (hl : roundToFloat p.lifeTime = p.lifeTime) (hnn : ∀ d ∈ ds, 0 ≤ d)
    (hlt : lifeTimeAfter p.lifeTime ds < p.maxLifeTime) :
    stepsList ds [p] = [p.advanceMany ds] := by
  induction ds generalizing p with
  | nil => rfl
  | cons d ds ih =>
    rw [stepsList_cons, stepList_singleton, advanceMany_cons]
    rw [lifeTimeAfter_cons] at hlt
    have hrest : ∀ x ∈ ds, 0 ≤ x := fun x hx => hnn x (List.mem_cons_of_mem _ hx)
    have h1 := (lifeTimeAfter_ge ds (roundToFloat (p.lifeTime + d)) (roundToFloat_idem _) hrest).1
    rw [if_neg (by linarith)]
    apply ih
    · rw [advance_lifeTime]; exact roundToFloat_idem _
    · exact hrest
    · rw [advance_lifeTime, advance_maxLifeTime]; exact hlt

theorem stepsList_all_expired (ds : List ℚ) (l : List Particle) (hne : ds ≠ [])
    (hsum : ∀ p ∈ l, p.maxLifeTime ≤ lifeTimeAfter p.lifeTime ds) : stepsList ds l = [] := by
  induction l with
  | nil => exact stepsList_nil ds
  | cons p l ih =>
    have happ : p :: l = [p] ++ l := rfl
    rw [happ, stepsList_append, stepsList_singleton_expired ds p hne (hsum p (by simp)),
      ih (fun q hq => hsum q (by simp [hq]))]
    rfl

theorem stepsList_all_survive (ds : List ℚ) (l : List Particle) (hnn : ∀ d ∈ ds, 0 ≤ d)
    (h : ∀ p ∈ l, roundToFloat p.lifeTime = p.lifeTime
      ∧ lifeTimeAfter p.lifeTime ds < p.maxLifeTime) :
    stepsList ds l = l.map (Particle.advanceMany ds) := by
  induction l with
  | nil => exact stepsList_nil ds
  | cons p l ih =>
    have happ : p :: l = [p] ++ l := rfl
    have hp := h p (by simp)
    rw [happ, stepsList_append, stepsList_singleton_survives ds p hp.1 hnn hp.2,
      ih (fun q hq => h q (by simp [hq]))]
    rfl

theorem GetRandomFloat_one_two_ge (env : Env) (r : Nat) : 1 ≤ GetRandomFloat env r 1 2 := by
  unfold GetRandomFloat
  have h : (0 : ℚ) ≤ (r : ℚ) / ((env.RAND_MAX : ℚ) / (2 - 1)) := by positivity
  linarith

theorem GetRandomFloat_one_two_le (env : Env) (r : Nat) (hr : r ≤ env.RAND_MAX)
    (hpos : 0 < env.RAND_MAX) : GetRandomFloat env r 1 2 ≤ 2 := by
  unfold GetRandomFloat
  have hM : (0 : ℚ) < (env.RAND_MAX : ℚ) := by exact_mod_cast hpos
  have hr1 : (r : ℚ) ≤ (env.RAND_MAX : ℚ) := by exact_mod_cast hr
  have h : (r : ℚ) / ((env.RAND_MAX : ℚ) / (2 - 1)) ≤ 1 := by
    rw [show ((2 : ℚ) - 1) = 1 by norm_num, div_one, div_le_one hM]
    exact hr1
  linarith

/-- The particles in the collection after `AddParticles.loop` are the old ones or new
ones with life time 0 and a maximum life time of at least 1. -/
theorem AddParticles_loop_mem (env : Env) (position : Vector3) (color : Color) (n : Nat)
    (l : List Particle) (k : Nat) (q : Particle)
    (hq : q ∈ (ParticleSystem.AddParticles.loop env position color n l k).1) :
    q ∈ l ∨ (q.lifeTime = 0 ∧ 1 ≤ q.maxLifeTime ∧
      ((∀ j, env.rand j ≤ env.RAND_MAX) → 0 < env.RAND_MAX → q.maxLifeTime ≤ 2)) := by
  induction n generalizing l k with
  | zero => exact Or.inl hq
  | succ n ih =>
    simp only [ParticleSystem.AddParticles.loop] at hq
    rcases ih _ _ hq with h | h
    · rcases List.mem_append.mp h with h1 | h1
      · exact Or.inl h1
      · right
        simp only [List.mem_singleton] at h1
        subst h1
        refine ⟨rfl, GetRandomFloat_one_two_ge _ _, ?_⟩
        intro hr hpos
        exact GetRandomFloat_one_two_le _ _ (hr _) hpos
    · exact Or.inr h

/-- Every particle of a reachable collection has a life time that is a float, not negative
and below its maximum life time, which is at least 1. -/
theorem Reachable_particle_bounds (env : Env) (ps : ParticleSystem)
    (h : ParticleSystem.Reachable env ps) :
    ∀ p ∈ ps.particles, 0 ≤ p.lifeTime ∧ 1 ≤ p.maxLifeTime
      ∧ roundToFloat p.lifeTime = p.lifeTime ∧ p.lifeTime < p.maxLifeTime := by
  induction h with
  | init => intro p hp; simp at hp
  | add ps position color count k _ ih =>
    intro p hp
    simp only [ParticleSystem.AddParticles] at hp
    rcases AddParticles_loop_mem env position color _ _ _ p hp with h1 | h1
    · exact ih p h1
    · refine ⟨by rw [h1.1], h1.2.1, by rw [h1.1, roundToFloat_zero], ?_⟩
      rw [h1.1]
      linarith [h1.2.1]
  | update ps frameTime _ hdt ih =>
    intro p hp
    rw [Update_particles] at hp
    simp only [List.mem_filter, List.mem_map] at hp
    obtain ⟨⟨q, hq, rfl⟩, halive⟩ := hp
    have := ih q hq
    simp only [Particle.dead, advance_lifeTime, advance_maxLifeTime, Bool.not_eq_true',
      decide_eq_false_iff_not, not_le] at halive
    rw [advance_lifeTime, advance_maxLifeTime]
    exact ⟨roundToFloat_nonneg _ (by linarith [this.1]), this.2.1, roundToFloat_idem _, halive⟩

/-! ## Expiry of particles under float accumulation -/

theorem sixtieth_eq : sixtieth = (8947849 / 536870912 : ℚ) := by
  unfold sixtieth
  rw [roundToFloat_eval (1 / 60) (-6) 8947849 (by norm_num) (by norm_num) (by norm_num)
    (roundNearestEven_of_abs_lt _ _ (by rw [abs_lt]; constructor <;> norm_num))]
  norm_num

theorem lifeTimeAfter_replicate_succ (l d : ℚ) (n : Nat) :
    lifeTimeAfter l (List.replicate (n + 1) d)
      = roundToFloat (lifeTimeAfter l (List.replicate n d) + d) := by
  rw [List.replicate_succ']
  simp [lifeTimeAfter, List.foldl_append]

/-- The life time accumulated in binary32 from 0 by 120 and by 121 additions of the float
nearest 1/60, each addition evaluated with `roundToFloat_eval`. -/
theorem lifeTimeAfter_sixtieth :
    lifeTimeAfter 0 (List.replicate 120 sixtieth) = (8388603 / 4194304 : ℚ)
      ∧ lifeTimeAfter 0 (List.replicate 121 sixtieth) = (2114627 / 1048576 : ℚ) := by
  have hd : sixtieth = (8947849 / 536870912 : ℚ) := sixtieth_eq
  have h0 : lifeTimeAfter 0 (List.replicate 0 sixtieth) = (0 : ℚ) := rfl
  have h1 : lifeTimeAfter 0 (List.replicate 1 sixtieth) = (8947849 / 536870912 : ℚ) :=
    (lifeTimeAfter_replicate_succ 0 sixtieth 0).trans (by
      rw [h0, hd, roundToFloat_eval ((0 : ℚ) + (8947849 / 536870912 : ℚ)) (-6) 8947849 (by norm_num) (by norm_num) (by norm_num)
        (roundNearestEven_of_abs_lt _ _ (by rw [abs_lt]; constructor <;> norm_num))]
      norm_num)
  have h2 : lifeTimeAfter 0 (List.replicate 2 sixtieth) = (8947849 / 268435456 : ℚ) :=
    (lifeTimeAfter_replicate_succ 0 sixtieth 1).trans (by
      rw [h1, hd, roundToFloat_eval ((8947849 / 536870912 : ℚ) + (8947849 / 536870912 : ℚ)) (-5) 8947849 (by norm_num) (by norm_num) (by norm_num)
        (roundNearestEven_of_abs_lt _ _ (by rw [abs_lt]; constructor <;> norm_num))]
      norm_num)
  have h3 : lifeTimeAfter 0 (List.replicate 3 sixtieth) = (6710887 / 134217728 : ℚ) :=
    (lifeTimeAfter_replicate_succ 0 sixtieth 2).trans (by
      rw [h2, hd, roundToFloat_eval ((8947849 / 268435456 : ℚ) + (8947849 / 536870912 : ℚ)) (-5) 13421774 (by norm_num) (by norm_num) (by norm_num)
        (roundNearestEven_of_tie _ _ (by norm_num [abs_of_pos, abs_of_neg]) (by decide))]
      norm_num)
  have h4 : lifeTimeAfter 0 (List.replicate 4 sixtieth) = (8947849 / 134217728 : ℚ) :=
    (lifeTimeAfter_replicate_succ 0 sixtieth 3).trans (by
      rw [h3, hd, roundToFloat_eval ((6710887 / 134217728 : ℚ) + (8947849 / 536870912 : ℚ)) (-4) 8947849 (by norm_num) (by norm_num) (by norm_num)
        (roundNearestEven_of_abs_lt _ _ (by rw [abs_lt]; constructor <;> norm_num))]
      norm_num)
  have h5 : lifeTimeAfter 0 (List.replicate 5 sixtieth) = (11184811 / 134217728 : ℚ) :=
    (lifeTimeAfter_replicate_succ 0 sixtieth 4).trans (by
      rw [h4, hd, roundToFloat_eval ((8947849 / 134217728 : ℚ) + (8947849 / 536870912 : ℚ)) (-4) 11184811 (by norm_num) (by norm_num) (by norm_num)
        (roundNearestEven_of_abs_lt _ _ (by rw [abs_lt]; constructor <;> norm_num))]
      norm_num)
  have h6 : lifeTimeAfter 0 (List.replicate 6 sixtieth) = (13421773 / 134217728 : ℚ) :=
    (lifeTimeAfter_replicate_succ 0 sixtieth 5).trans (by
      rw [h5, hd, roundToFloat_eval ((11184811 / 134217728 : ℚ) + (8947849 / 536870912 : ℚ)) (-4) 13421773 (by norm_num) (by norm_num) (by norm_num)
        (roundNearestEven_of_abs_lt _ _ (by rw [abs_lt]; constructor <;> norm_num))]
      norm_num)
  have h7 : lifeTimeAfter 0 (List.replicate 7 sixtieth) = (15658735 / 134217728 : ℚ) :=
    (lifeTimeAfter_replicate_succ 0 sixtieth 6).trans (by
      rw [h6, hd, roundToFloat_eval ((13421773 / 134217728 : ℚ) + (8947849 / 536870912 : ℚ)) (-4) 15658735 (by norm_num) (by norm_num) (by norm_num)
        (roundNearestEven_of_abs_lt _ _ (by rw [abs_lt]; constructor <;> norm_num))]
      norm_num)
  have h8 : lifeTimeAfter 0 (List.replicate 8 sixtieth) = (8947849 / 67108864 : ℚ) :=
    (lifeTimeAfter_replicate_succ 0 sixtieth 7).trans (by
      rw [h7, hd, roundToFloat_eval ((15658735 / 134217728 : ℚ) + (8947849 / 536870912 : ℚ)) (-3) 8947849 (by norm_num) (by norm_num) (by norm_num)
        (roundNearestEven_of_abs_lt _ _ (by rw [abs_lt]; constructor <;> norm_num))]
      norm_num)
  have h9 : lifeTimeAfter 0 (List.replicate 9 sixtieth) = (5033165 / 33554432 : ℚ) :=
    (lifeTimeAfter_replicate_succ 0 sixtieth 8).trans (by
      rw [h8, hd, roundToFloat_eval ((8947849 / 67108864 : ℚ) + (8947849 / 536870912 : ℚ)) (-3) 10066330 (by norm_num) (by norm_num) (by norm_num)
        (roundNearestEven_of_abs_lt _ _ (by rw [abs_lt]; constructor <;> norm_num))]
      norm_num)
  have h10 : lifeTimeAfter 0 (List.replicate 10 sixtieth) = (11184811 / 67108864 : ℚ) :=
    (lifeTimeAfter_replicate_succ 0 sixtieth 9).trans (by
      rw [h9, hd, roundToFloat_eval ((5033165 / 33554432 : ℚ) + (8947849 / 536870912 : ℚ)) (-3) 11184811 (by norm_num) (by norm_num) (by norm_num)
        (roundNearestEven_of_abs_lt _ _ (by rw [abs_lt]; constructor <;> norm_num))]
      norm_num)
  have h11 : lifeTimeAfter 0 (List.replicate 11 sixtieth) = (3075823 / 16777216 : ℚ) :=
    (lifeTimeAfter_replicate_succ 0 sixtieth 10).trans (by
      rw [h10, hd, roundToFloat_eval ((11184811 / 67108864 : ℚ) + (8947849 / 536870912 : ℚ)) (-3) 12303292 (by norm_num) (by norm_num) (by norm_num)
        (roundNearestEven_of_abs_lt _ _ (by rw [abs_lt]; constructor <;> norm_num))]
      norm_num)
  have h12 : lifeTimeAfter 0 (List.replicate 12 sixtieth) = (13421773 / 67108864 : ℚ) :=
    (lifeTimeAfter_replicate_succ 0 sixtieth 11).trans (by
      rw [h11, hd, roundToFloat_eval ((3075823 / 16777216 : ℚ) + (8947849 / 536870912 : ℚ)) (-3) 13421773 (by norm_num) (by norm_num) (by norm_num)
        (roundNearestEven_of_abs_lt _ _ (by rw [abs_lt]; constructor <;> norm_num))]
      norm_num)
  have h13 : lifeTimeAfter 0 (List.replicate 13 sixtieth) = (7270127 / 33554432 : ℚ) :=
    (lifeTimeAfter_replicate_succ 0 sixtieth 12).trans (by
      rw [h12, hd, roundToFloat_eval ((13421773 / 67108864 : ℚ) + (8947849 / 536870912 : ℚ)) (-3) 14540254 (by norm_num) (by norm_num) (by norm_num)
        (roundNearestEven_of_abs_lt _ _ (by rw [abs_lt]; constructor <;> norm_num))]
      norm_num)
  have h14 : lifeTimeAfter 0 (List.replicate 14 sixtieth) = (15658735 / 67108864 : ℚ) :=
    (lifeTimeAfter_replicate_succ 0 sixtieth 13).trans (by
      rw [h13, hd, roundToFloat_eval ((7270127 / 33554432 : ℚ) + (8947849 / 536870912 : ℚ)) (-3) 15658735 (by norm_num) (by norm_num) (by norm_num)
        (roundNearestEven_of_abs_lt _ _ (by rw [abs_lt]; constructor <;> norm_num))]
      norm_num)
  have h15 : lifeTimeAfter 0 (List.replicate 15 sixtieth) = (1 / 4 : ℚ) :=
    (lifeTimeAfter_replicate_succ 0 sixtieth 14).trans (by
      rw [h14, hd, roundToFloat_eval ((15658735 / 67108864 : ℚ) + (8947849 / 536870912 : ℚ)) (-2) 8388608 (by norm_num) (by norm_num) (by norm_num)
        (roundNearestEven_of_abs_lt _ _ (by rw [abs_lt]; constructor <;> norm_num))]
      norm_num)
  have h16 : lifeTimeAfter 0 (List.replicate 16 sixtieth) = (8947849 / 33554432 : ℚ) :=
    (lifeTimeAfter_replicate_succ 0 sixtieth 15).trans (by
      rw [h15, hd, roundToFloat_eval ((1 / 4 : ℚ) + (8947849 / 536870912 : ℚ)) (-2) 8947849 (by norm_num) (by norm_num) (by norm_num)
        (roundNearestEven_of_abs_lt _ _ (by rw [abs_lt]; constructor <;> norm_num))]
      norm_num)
  have h17 : lifeTimeAfter 0 (List.replicate 17 sixtieth) = (4753545 / 16777216 : ℚ) :=
    (lifeTimeAfter_replicate_succ 0 sixtieth 16).trans (by
      rw [h16, hd, roundToFloat_eval ((8947849 / 33554432 : ℚ) + (8947849 / 536870912 : ℚ)) (-2) 9507090 (by norm_num) (by norm_num) (by norm_num)
        (roundNearestEven_of_abs_lt _ _ (by rw [abs_lt]; constructor <;> norm_num))]
      norm_num)
  have h18 : lifeTimeAfter 0 (List.replicate 18 sixtieth) = (10066331 / 33554432 : ℚ) :=
    (lifeTimeAfter_replicate_succ 0 sixtieth 17).trans (by
      rw [h17, hd, roundToFloat_eval ((4753545 / 16777216 : ℚ) + (8947849 / 536870912 : ℚ)) (-2) 10066331 (by norm_num) (by norm_num) (by norm_num)
        (roundNearestEven_of_abs_lt _ _ (by rw [abs_lt]; constructor <;> norm_num))]
      norm_num)
  have h19 : lifeTimeAfter 0 (List.replicate 19 sixtieth) = (2656393 / 8388608 : ℚ) :=
    (lifeTimeAfter_replicate_succ 0 sixtieth 18).trans (by
      rw [h18, hd, roundToFloat_eval ((10066331 / 33554432 : ℚ) + (8947849 / 536870912 : ℚ)) (-2) 10625572 (by norm_num) (by norm_num) (by norm_num)
        (roundNearestEven_of_abs_lt _ _ (by rw [abs_lt]; constructor <;> norm_num))]
      norm_num)
  have h20 : lifeTimeAfter 0 (List.replicate 20 sixtieth) = (11184813 / 33554432 : ℚ) :=
    (lifeTimeAfter_replicate_succ 0 sixtieth 19).trans (by
      rw [h19, hd, roundToFloat_eval ((2656393 / 8388608 : ℚ) + (8947849 / 536870912 : ℚ)) (-2) 11184813 (by norm_num) (by norm_num) (by norm_num)
        (roundNearestEven_of_abs_lt _ _ (by rw [abs_lt]; constructor <;> norm_num))]
      norm_num)
  have h21 : lifeTimeAfter 0 (List.replicate 21 sixtieth) = (5872027 / 16777216 : ℚ) :=
    (lifeTimeAfter_replicate_succ 0 sixtieth 20).trans (by
      rw [h20, hd, roundToFloat_eval ((11184813 / 33554432 : ℚ) + (8947849 / 536870912 : ℚ)) (-2) 11744054 (by norm_num) (by norm_num) (by norm_num)
        (roundNearestEven_of_abs_lt _ _ (by rw [abs_lt]; constructor <;> norm_num))]
      norm_num)
  have h22 : lifeTimeAfter 0 (List.replicate 22 sixtieth) = (12303295 / 33554432 : ℚ) :=
    (lifeTimeAfter_replicate_succ 0 sixtieth 21).trans (by
      rw [h21, hd, roundToFloat_eval ((5872027 / 16777216 : ℚ) + (8947849 / 536870912 : ℚ)) (-2) 12303295 (by norm_num) (by norm_num) (by norm_num)
        (roundNearestEven_of_abs_lt _ _ (by rw [abs_lt]; constructor <;> norm_num))]
      norm_num)
  have h23 : lifeTimeAfter 0 (List.replicate 23 sixtieth) = (1607817 / 4194304 : ℚ) :=
    (lifeTimeAfter_replicate_succ 0 sixtieth 22).trans (by
      rw [h22, hd, roundToFloat_eval ((12303295 / 33554432 : ℚ) + (8947849 / 536870912 : ℚ)) (-2) 12862536 (by norm_num) (by norm_num) (by norm_num)
        (roundNearestEven_of_abs_lt _ _ (by rw [abs_lt]; constructor <;> norm_num))]
      norm_num)
  have h24 : lifeTimeAfter 0 (List.replicate 24 sixtieth) = (13421777 / 33554432 : ℚ) :=
    (lifeTimeAfter_replicate_succ 0 sixtieth 23).trans (by
      rw [h23, hd, roundToFloat_eval ((1607817 / 4194304 : ℚ) + (8947849 / 536870912 : ℚ)) (-2) 13421777 (by norm_num) (by norm_num) (by norm_num)
        (roundNearestEven_of_abs_lt _ _ (by rw [abs_lt]; constructor <;> norm_num))]
      norm_num)
  have h25 : lifeTimeAfter 0 (List.replicate 25 sixtieth) = (6990509 / 16777216 : ℚ) :=
    (lifeTimeAfter_replicate_succ 0 sixtieth 24).trans (by
      rw [h24, hd, roundToFloat_eval ((13421777 / 33554432 : ℚ) + (8947849 / 536870912 : ℚ)) (-2) 13981018 (by norm_num) (by norm_num) (by norm_num)
        (roundNearestEven_of_abs_lt _ _ (by rw [abs_lt]; constructor <;> norm_num))]
      norm_num)
  have h26 : lifeTimeAfter 0 (List.replicate 26 sixtieth) = (14540259 / 33554432 : ℚ) :=
    (lifeTimeAfter_replicate_succ 0 sixtieth 25).trans (by
      rw [h25, hd, roundToFloat_eval ((6990509 / 16777216 : ℚ) + (8947849 / 536870912 : ℚ)) (-2) 14540259 (by norm_num) (by norm_num) (by norm_num)
        (roundNearestEven_of_abs_lt _ _ (by rw [abs_lt]; constructor <;> norm_num))]
      norm_num)
  have h27 : lifeTimeAfter 0 (List.replicate 27 sixtieth) = (3774875 / 8388608 : ℚ) :=
    (lifeTimeAfter_replicate_succ 0 sixtieth 26).trans (by
      rw [h26, hd, roundToFloat_eval ((14540259 / 33554432 : ℚ) + (8947849 / 536870912 : ℚ)) (-2) 15099500 (by norm_num) (by norm_num) (by norm_num)
        (roundNearestEven_of_abs_lt _ _ (by rw [abs_lt]; constructor <;> norm_num))]
      norm_num)
  have h28 : lifeTimeAfter 0 (List.replicate 28 sixtieth) = (15658741 / 33554432 : ℚ) :=
    (lifeTimeAfter_replicate_succ 0 sixtieth 27).trans (by
      rw [h27, hd, roundToFloat_eval ((3774875 / 8388608 : ℚ) + (8947849 / 536870912 : ℚ)) (-2) 15658741 (by norm_num) (by norm_num) (by norm_num)
        (roundNearestEven_of_abs_lt _ _ (by rw [abs_lt]; constructor <;> norm_num))]
      norm_num)
  have h29 : lifeTimeAfter 0 (List.replicate 29 sixtieth) = (8108991 / 16777216 : ℚ) :=
    (lifeTimeAfter_replicate_succ 0 sixtieth 28).trans (by
      rw [h28, hd, roundToFloat_eval ((15658741 / 33554432 : ℚ) + (8947849 / 536870912 : ℚ)) (-2) 16217982 (by norm_num) (by norm_num) (by norm_num)
        (roundNearestEven_of_abs_lt _ _ (by rw [abs_lt]; constructor <;> norm_num))]
      norm_num)
  have h30 : lifeTimeAfter 0 (List.replicate 30 sixtieth) = (8388611 / 16777216 : ℚ) :=
    (lifeTimeAfter_replicate_succ 0 sixtieth 29).trans (by
      rw [h29, hd, roundToFloat_eval ((8108991 / 16777216 : ℚ) + (8947849 / 536870912 : ℚ)) (-1) 8388611 (by norm_num) (by norm_num) (by norm_num)
        (roundNearestEven_of_abs_lt _ _ (by rw [abs_lt]; constructor <;> norm_num))]
      norm_num)
  have h31 : lifeTimeAfter 0 (List.replicate 31 sixtieth) = (8668231 / 16777216 : ℚ) :=
    (lifeTimeAfter_replicate_succ 0 sixtieth 30).trans (by
      rw [h30, hd, roundToFloat_eval ((8388611 / 16777216 : ℚ) + (8947849 / 536870912 : ℚ)) (-1) 8668231 (by norm_num) (by norm_num) (by norm_num)
        (roundNearestEven_of_abs_lt _ _ (by rw [abs_lt]; constructor <;> norm_num))]
      norm_num)
  have h32 : lifeTimeAfter 0 (List.replicate 32 sixtieth) = (8947851 / 16777216 : ℚ) :=
    (lifeTimeAfter_replicate_succ 0 sixtieth 31).trans (by
      rw [h31, hd, roundToFloat_eval ((8668231 / 16777216 : ℚ) + (8947849 / 536870912 : ℚ)) (-1) 8947851 (by norm_num) (by norm_num) (by norm_num)
        (roundNearestEven_of_abs_lt _ _ (by rw [abs_lt]; constructor <;> norm_num))]
      norm_num)
  have h33 : lifeTimeAfter 0 (List.replicate 33 sixtieth) = (9227471 / 16777216 : ℚ) :=
    (lifeTimeAfter_replicate_succ 0 sixtieth 32).trans (by
      rw [h32, hd, roundToFloat_eval ((8947851 / 16777216 : ℚ) + (8947849 / 536870912 : ℚ)) (-1) 9227471 (by norm_num) (by norm_num) (by norm_num)
        (roundNearestEven_of_abs_lt _ _ (by rw [abs_lt]; constructor <;> norm_num))]
      norm_num)
  have h34 : lifeTimeAfter 0 (List.replicate 34 sixtieth) = (9507091 / 16777216 : ℚ) :=
    (lifeTimeAfter_replicate_succ 0 sixtieth 33).trans (by
      rw [h33, hd, roundToFloat_eval ((9227471 / 16777216 : ℚ) + (8947849 / 536870912 : ℚ)) (-1) 9507091 (by norm_num) (by norm_num) (by norm_num)
        (roundNearestEven_of_abs_lt _ _ (by rw [abs_lt]; constructor <;> norm_num))]
      norm_num)
  have h35 : lifeTimeAfter 0 (List.replicate 35 sixtieth) = (9786711 / 16777216 : ℚ) :=
    (lifeTimeAfter_replicate_succ 0 sixtieth 34).trans (by
      rw [h34, hd, roundToFloat_eval ((9507091 / 16777216 : ℚ) + (8947849 / 536870912 : ℚ)) (-1) 9786711 (by norm_num) (by norm_num) (by norm_num)
        (roundNearestEven_of_abs_lt _ _ (by rw [abs_lt]; constructor <;> norm_num))]
      norm_num)
  have h36 : lifeTimeAfter 0 (List.replicate 36 sixtieth) = (10066331 / 16777216 : ℚ) :=
    (lifeTimeAfter_replicate_succ 0 sixtieth 35).trans (by
      rw [h35, hd, roundToFloat_eval ((9786711 / 16777216 : ℚ) + (8947849 / 536870912 : ℚ)) (-1) 10066331 (by norm_num) (by norm_num) (by norm_num)
        (roundNearestEven_of_abs_lt _ _ (by rw [abs_lt]; constructor <;> norm_num))]
      norm_num)
  have h37 : lifeTimeAfter 0 (List.replicate 37 sixtieth) = (10345951 / 16777216 : ℚ) :=
    (lifeTimeAfter_replicate_succ 0 sixtieth 36).trans (by
      rw [h36, hd, roundToFloat_eval ((10066331 / 16777216 : ℚ) + (8947849 / 536870912 : ℚ)) (-1) 10345951 (by norm_num) (by norm_num) (by norm_num)
        (roundNearestEven_of_abs_lt _ _ (by rw [abs_lt]; constructor <;> norm_num))]
      norm_num)
  have h38 : lifeTimeAfter 0 (List.replicate 38 sixtieth) = (10625571 / 16777216 : ℚ) :=
    (lifeTimeAfter_replicate_succ 0 sixtieth 37).trans (by
      rw [h37, hd, roundToFloat_eval ((10345951 / 16777216 : ℚ) + (8947849 / 536870912 : ℚ)) (-1) 10625571 (by norm_num) (by norm_num) (by norm_num)
        (roundNearestEven_of_abs_lt _ _ (by rw [abs_lt]; constructor <;> norm_num))]
      norm_num)
  have h39 : lifeTimeAfter 0 (List.replicate 39 sixtieth) = (10905191 / 16777216 : ℚ) :=
    (lifeTimeAfter_replicate_succ 0 sixtieth 38).trans (by
      rw [h38, hd, roundToFloat_eval ((10625571 / 16777216 : ℚ) + (8947849 / 536870912 : ℚ)) (-1) 10905191 (by norm_num) (by norm_num) (by norm_num)
        (roundNearestEven_of_abs_lt _ _ (by rw [abs_lt]; constructor <;> norm_num))]
      norm_num)
  have h40 : lifeTimeAfter 0 (List.replicate 40 sixtieth) = (11184811 / 16777216 : ℚ) :=
    (lifeTimeAfter_replicate_succ 0 sixtieth 39).trans (by
      rw [h39, hd, roundToFloat_eval ((10905191 / 16777216 : ℚ) + (8947849 / 536870912 : ℚ)) (-1) 11184811 (by norm_num) (by norm_num) (by norm_num)
        (roundNearestEven_of_abs_lt _ _ (by rw [abs_lt]; constructor <;> norm_num))]
      norm_num)
  have h41 : lifeTimeAfter 0 (List.replicate 41 sixtieth) = (11464431 / 16777216 : ℚ) :=
    (lifeTimeAfter_replicate_succ 0 sixtieth 40).trans (by
      rw [h40, hd, roundToFloat_eval ((11184811 / 16777216 : ℚ) + (8947849 / 536870912 : ℚ)) (-1) 11464431 (by norm_num) (by norm_num) (by norm_num)
        (roundNearestEven_of_abs_lt _ _ (by rw [abs_lt]; constructor <;> norm_num))]
      norm_num)
  have h42 : lifeTimeAfter 0 (List.replicate 42 sixtieth) = (11744051 / 16777216 : ℚ) :=
    (lifeTimeAfter_replicate_succ 0 sixtieth 41).trans (by
      rw [h41, hd, roundToFloat_eval ((11464431 / 16777216 : ℚ) + (8947849 / 536870912 : ℚ)) (-1) 11744051 (by norm_num) (by norm_num) (by norm_num)
        (roundNearestEven_of_abs_lt _ _ (by rw [abs_lt]; constructor <;> norm_num))]
      norm_num)
  have h43 : lifeTimeAfter 0 (List.replicate 43 sixtieth) = (12023671 / 16777216 : ℚ) :=
    (lifeTimeAfter_replicate_succ 0 sixtieth 42).trans (by
      rw [h42, hd, roundToFloat_eval ((11744051 / 16777216 : ℚ) + (8947849 / 536870912 : ℚ)) (-1) 12023671 (by norm_num) (by norm_num) (by norm_num)
        (roundNearestEven_of_abs_lt _ _ (by rw [abs_lt]; constructor <;> norm_num))]
      norm_num)
  have h44 : lifeTimeAfter 0 (List.replicate 44 sixtieth) = (12303291 / 16777216 : ℚ) :=
    (lifeTimeAfter_replicate_succ 0 sixtieth 43).trans (by
      rw [h43, hd, roundToFloat_eval ((12023671 / 16777216 : ℚ) + (8947849 / 536870912 : ℚ)) (-1) 12303291 (by norm_num) (by norm_num) (by norm_num)
        (roundNearestEven_of_abs_lt _ _ (by rw [abs_lt]; constructor <;> norm_num))]
      norm_num)
  have h45 : lifeTimeAfter 0 (List.replicate 45 sixtieth) = (12582911 / 16777216 : ℚ) :=
    (lifeTimeAfter_replicate_succ 0 sixtieth 44).trans (by
      rw [h44, hd, roundToFloat_eval ((12303291 / 16777216 : ℚ) + (8947849 / 536870912 : ℚ)) (-1) 12582911 (by norm_num) (by norm_num) (by norm_num)
        (roundNearestEven_of_abs_lt _ _ (by rw [abs_lt]; constructor <;> norm_num))]
      norm_num)
  have h46 : lifeTimeAfter 0 (List.replicate 46 sixtieth) = (12862531 / 16777216 : ℚ) :=
    (lifeTimeAfter_replicate_succ 0 sixtieth 45).trans (by
      rw [h45, hd, roundToFloat_eval ((12582911 / 16777216 : ℚ) + (8947849 / 536870912 : ℚ)) (-1) 12862531 (by norm_num) (by norm_num) (by norm_num)
        (roundNearestEven_of_abs_lt _ _ (by rw [abs_lt]; constructor <;> norm_num))]
      norm_num)
  have h47 : lifeTimeAfter 0 (List.replicate 47 sixtieth) = (13142151 / 16777216 : ℚ) :=
    (lifeTimeAfter_replicate_succ 0 sixtieth 46).trans (by
      rw [h46, hd, roundToFloat_eval ((12862531 / 16777216 : ℚ) + (8947849 / 536870912 : ℚ)) (-1) 13142151 (by norm_num) (by norm_num) (by norm_num)
        (roundNearestEven_of_abs_lt _ _ (by rw [abs_lt]; constructor <;> norm_num))]
      norm_num)
  have h48 : lifeTimeAfter 0 (List.replicate 48 sixtieth) = (13421771 / 16777216 : ℚ) :=
    (lifeTimeAfter_replicate_succ 0 sixtieth 47).trans (by
      rw [h47, hd, roundToFloat_eval ((13142151 / 16777216 : ℚ) + (8947849 / 536870912 : ℚ)) (-1) 13421771 (by norm_num) (by norm_num) (by norm_num)
        (roundNearestEven_of_abs_lt _ _ (by rw [abs_lt]; constructor <;> norm_num))]
      norm_num)
  have h49 : lifeTimeAfter 0 (List.replicate 49 sixtieth) = (13701391 / 16777216 : ℚ) :=
    (lifeTimeAfter_replicate_succ 0 sixtieth 48).trans (by
      rw [h48, hd, roundToFloat_eval ((13421771 / 16777216 : ℚ) + (8947849 / 536870912 : ℚ)) (-1) 13701391 (by norm_num) (by norm_num) (by norm_num)
        (roundNearestEven_of_abs_lt _ _ (by rw [abs_lt]; constructor <;> norm_num))]
      norm_num)
  have h50 : lifeTimeAfter 0 (List.replicate 50 sixtieth) = (13981011 / 16777216 : ℚ) :=
    (lifeTimeAfter_replicate_succ 0 sixtieth 49).trans (by
      rw [h49, hd, roundToFloat_eval ((13701391 / 16777216 : ℚ) + (8947849 / 536870912 : ℚ)) (-1) 13981011 (by norm_num) (by norm_num) (by norm_num)
        (roundNearestEven_of_abs_lt _ _ (by rw [abs_lt]; constructor <;> norm_num))]
      norm_num)
  have h51 : lifeTimeAfter 0 (List.replicate 51 sixtieth) = (14260631 / 16777216 : ℚ) :=
    (lifeTimeAfter_replicate_succ 0 sixtieth 50).trans (by
      rw [h50, hd, roundToFloat_eval ((13981011 / 16777216 : ℚ) + (8947849 / 536870912 : ℚ)) (-1) 14260631 (by norm_num) (by norm_num) (by norm_num)
        (roundNearestEven_of_abs_lt _ _ (by rw [abs_lt]; constructor <;> norm_num))]
      norm_num)
  have h52 : lifeTimeAfter 0 (List.replicate 52 sixtieth) = (14540251 / 16777216 : ℚ) :=
    (lifeTimeAfter_replicate_succ 0 sixtieth 51).trans (by
      rw [h51, hd, roundToFloat_eval ((14260631 / 16777216 : ℚ) + (8947849 / 536870912 : ℚ)) (-1) 14540251 (by norm_num) (by norm_num) (by norm_num)
        (roundNearestEven_of_abs_lt _ _ (by rw [abs_lt]; constructor <;> norm_num))]
      norm_num)
  have h53 : lifeTimeAfter 0 (List.replicate 53 sixtieth) = (14819871 / 16777216 : ℚ) :=
    (lifeTimeAfter_replicate_succ 0 sixtieth 52).trans (by
      rw [h52, hd, roundToFloat_eval ((14540251 / 16777216 : ℚ) + (8947849 / 536870912 : ℚ)) (-1) 14819871 (by norm_num) (by norm_num) (by norm_num)
        (roundNearestEven_of_abs_lt _ _ (by rw [abs_lt]; constructor <;> norm_num))]
      norm_num)
  have h54 : lifeTimeAfter 0 (List.replicate 54 sixtieth) = (15099491 / 16777216 : ℚ) :=
    (lifeTimeAfter_replicate_succ 0 sixtieth 53).trans (by
      rw [h53, hd, roundToFloat_eval ((14819871 / 16777216 : ℚ) + (8947849 / 536870912 : ℚ)) (-1) 15099491 (by norm_num) (by norm_num) (by norm_num)
        (roundNearestEven_of_abs_lt _ _ (by rw [abs_lt]; constructor <;> norm_num))]
      norm_num)
  have h55 : lifeTimeAfter 0 (List.replicate 55 sixtieth) = (15379111 / 16777216 : ℚ) :=
    (lifeTimeAfter_replicate_succ 0 sixtieth 54).trans (by
      rw [h54, hd, roundToFloat_eval ((15099491 / 16777216 : ℚ) + (8947849 / 536870912 : ℚ)) (-1) 15379111 (by norm_num) (by norm_num) (by norm_num)
        (roundNearestEven_of_abs_lt _ _ (by rw [abs_lt]; constructor <;> norm_num))]
      norm_num)
  have h56 : lifeTimeAfter 0 (List.replicate 56 sixtieth) = (15658731 / 16777216 : ℚ) :=
    (lifeTimeAfter_replicate_succ 0 sixtieth 55).trans (by
      rw [h55, hd, roundToFloat_eval ((15379111 / 16777216 : ℚ) + (8947849 / 536870912 : ℚ)) (-1) 15658731 (by norm_num) (by norm_num) (by norm_num)
        (roundNearestEven_of_abs_lt _ _ (by rw [abs_lt]; constructor <;> norm_num))]
      norm_num)
  have h57 : lifeTimeAfter 0 (List.replicate 57 sixtieth) = (15938351 / 16777216 : ℚ) :=
    (lifeTimeAfter_replicate_succ 0 sixtieth 56).trans (by
      rw [h56, hd, roundToFloat_eval ((15658731 / 16777216 : ℚ) + (8947849 / 536870912 : ℚ)) (-1) 15938351 (by norm_num) (by norm_num) (by norm_num)
        (roundNearestEven_of_abs_lt _ _ (by rw [abs_lt]; constructor <;> norm_num))]
      norm_num)
  have h58 : lifeTimeAfter 0 (List.replicate 58 sixtieth) = (16217971 / 16777216 : ℚ) :=
    (lifeTimeAfter_replicate_succ 0 sixtieth 57).trans (by
      rw [h57, hd, roundToFloat_eval ((15938351 / 16777216 : ℚ) + (8947849 / 536870912 : ℚ)) (-1) 16217971 (by norm_num) (by norm_num) (by norm_num)
        (roundNearestEven_of_abs_lt _ _ (by rw [abs_lt]; constructor <;> norm_num))]
      norm_num)
  have h59 : lifeTimeAfter 0 (List.replicate 59 sixtieth) = (16497591 / 16777216 : ℚ) :=
    (lifeTimeAfter_replicate_succ 0 sixtieth 58).trans (by
      rw [h58, hd, roundToFloat_eval ((16217971 / 16777216 : ℚ) + (8947849 / 536870912 : ℚ)) (-1) 16497591 (by norm_num) (by norm_num) (by norm_num)
        (roundNearestEven_of_abs_lt _ _ (by rw [abs_lt]; constructor <;> norm_num))]
      norm_num)
  have h60 : lifeTimeAfter 0 (List.replicate 60 sixtieth) = (16777211 / 16777216 : ℚ) :=
    (lifeTimeAfter_replicate_succ 0 sixtieth 59).trans (by
      rw [h59, hd, roundToFloat_eval ((16497591 / 16777216 : ℚ) + (8947849 / 536870912 : ℚ)) (-1) 16777211 (by norm_num) (by norm_num) (by norm_num)
        (roundNearestEven_of_abs_lt _ _ (by rw [abs_lt]; constructor <;> norm_num))]
      norm_num)
  have h61 : lifeTimeAfter 0 (List.replicate 61 sixtieth) = (266513 / 262144 : ℚ) :=
    (lifeTimeAfter_replicate_succ 0 sixtieth 60).trans (by
      rw [h60, hd, roundToFloat_eval ((16777211 / 16777216 : ℚ) + (8947849 / 536870912 : ℚ)) (0) 8528416 (by norm_num) (by norm_num) (by norm_num)
        (roundNearestEven_of_abs_lt _ _ (by rw [abs_lt]; constructor <;> norm_num))]
      norm_num)
  have h62 : lifeTimeAfter 0 (List.replicate 62 sixtieth) = (4334113 / 4194304 : ℚ) :=
    (lifeTimeAfter_replicate_succ 0 sixtieth 61).trans (by
      rw [h61, hd, roundToFloat_eval ((266513 / 262144 : ℚ) + (8947849 / 536870912 : ℚ)) (0) 8668226 (by norm_num) (by norm_num) (by norm_num)
        (roundNearestEven_of_abs_lt _ _ (by rw [abs_lt]; constructor <;> norm_num))]
      norm_num)
  have h63 : lifeTimeAfter 0 (List.replicate 63 sixtieth) = (2202009 / 2097152 : ℚ) :=
    (lifeTimeAfter_replicate_succ 0 sixtieth 62).trans (by
      rw [h62, hd, roundToFloat_eval ((4334113 / 4194304 : ℚ) + (8947849 / 536870912 : ℚ)) (0) 8808036 (by norm_num) (by norm_num) (by norm_num)
        (roundNearestEven_of_abs_lt _ _ (by rw [abs_lt]; constructor <;> norm_num))]
      norm_num)
  have h64 : lifeTimeAfter 0 (List.replicate 64 sixtieth) = (4473923 / 4194304 : ℚ) :=
    (lifeTimeAfter_replicate_succ 0 sixtieth 63).trans (by
      rw [h63, hd, roundToFloat_eval ((2202009 / 2097152 : ℚ) + (8947849 / 536870912 : ℚ)) (0) 8947846 (by norm_num) (by norm_num) (by norm_num)
        (roundNearestEven_of_abs_lt _ _ (by rw [abs_lt]; constructor <;> norm_num))]
      norm_num)
  have h65 : lifeTimeAfter 0 (List.replicate 65 sixtieth) = (1135957 / 1048576 : ℚ) :=
    (lifeTimeAfter_replicate_succ 0 sixtieth 64).trans (by
      rw [h64, hd, roundToFloat_eval ((4473923 / 4194304 : ℚ) + (8947849 / 536870912 : ℚ)) (0) 9087656 (by norm_num) (by norm_num) (by norm_num)
        (roundNearestEven_of_abs_lt _ _ (by rw [abs_lt]; constructor <;> norm_num))]
      norm_num)
  have h66 : lifeTimeAfter 0 (List.replicate 66 sixtieth) = (4613733 / 4194304 : ℚ) :=
    (lifeTimeAfter_replicate_succ 0 sixtieth 65).trans (by
      rw [h65, hd, roundToFloat_eval ((1135957 / 1048576 : ℚ) + (8947849 / 536870912 : ℚ)) (0) 9227466 (by norm_num) (by norm_num) (by norm_num)
        (roundNearestEven_of_abs_lt _ _ (by rw [abs_lt]; constructor <;> norm_num))]
      norm_num)
  have h67 : lifeTimeAfter 0 (List.replicate 67 sixtieth) = (2341819 / 2097152 : ℚ) :=
    (lifeTimeAfter_replicate_succ 0 sixtieth 66).trans (by
      rw [h66, hd, roundToFloat_eval ((4613733 / 4194304 : ℚ) + (8947849 / 536870912 : ℚ)) (0) 9367276 (by norm_num) (by norm_num) (by norm_num)
        (roundNearestEven_of_abs_lt _ _ (by rw [abs_lt]; constructor <;> norm_num))]
      norm_num)
  have h68 : lifeTimeAfter 0 (List.replicate 68 sixtieth) = (4753543 / 4194304 : ℚ) :=
    (lifeTimeAfter_replicate_succ 0 sixtieth 67).trans (by
      rw [h67, hd, roundToFloat_eval ((2341819 / 2097152 : ℚ) + (8947849 / 536870912 : ℚ)) (0) 9507086 (by norm_num) (by norm_num) (by norm_num)
        (roundNearestEven_of_abs_lt _ _ (by rw [abs_lt]; constructor <;> norm_num))]
      norm_num)
  have h69 : lifeTimeAfter 0 (List.replicate 69 sixtieth) = (602931 / 524288 : ℚ) :=
    (lifeTimeAfter_replicate_succ 0 sixtieth 68).trans (by
      rw [h68, hd, roundToFloat_eval ((4753543 / 4194304 : ℚ) + (8947849 / 536870912 : ℚ)) (0) 9646896 (by norm_num) (by norm_num) (by norm_num)
        (roundNearestEven_of_abs_lt _ _ (by rw [abs_lt]; constructor <;> norm_num))]
      norm_num)
  have h70 : lifeTimeAfter 0 (List.replicate 70 sixtieth) = (4893353 / 4194304 : ℚ) :=
    (lifeTimeAfter_replicate_succ 0 sixtieth 69).trans (by
      rw [h69, hd, roundToFloat_eval ((602931 / 524288 : ℚ) + (8947849 / 536870912 : ℚ)) (0) 9786706 (by norm_num) (by norm_num) (by norm_num)
        (roundNearestEven_of_abs_lt _ _ (by rw [abs_lt]; constructor <;> norm_num))]
      norm_num)
  have h71 : lifeTimeAfter 0 (List.replicate 71 sixtieth) = (2481629 / 2097152 : ℚ) :=
    (lifeTimeAfter_replicate_succ 0 sixtieth 70).trans (by
      rw [h70, hd, roundToFloat_eval ((4893353 / 4194304 : ℚ) + (8947849 / 536870912 : ℚ)) (0) 9926516 (by norm_num) (by norm_num) (by norm_num)
        (roundNearestEven_of_abs_lt _ _ (by rw [abs_lt]; constructor <;> norm_num))]
      norm_num)
  have h72 : lifeTimeAfter 0 (List.replicate 72 sixtieth) = (5033163 / 4194304 : ℚ) :=
    (lifeTimeAfter_replicate_succ 0 sixtieth 71).trans (by
      rw [h71, hd, roundToFloat_eval ((2481629 / 2097152 : ℚ) + (8947849 / 536870912 : ℚ)) (0) 10066326 (by norm_num) (by norm_num) (by norm_num)
        (roundNearestEven_of_abs_lt _ _ (by rw [abs_lt]; constructor <;> norm_num))]
      norm_num)
  have h73 : lifeTimeAfter 0 (List.replicate 73 sixtieth) = (1275767 / 1048576 : ℚ) :=
    (lifeTimeAfter_replicate_succ 0 sixtieth 72).trans (by
      rw [h72, hd, roundToFloat_eval ((5033163 / 4194304 : ℚ) + (8947849 / 536870912 : ℚ)) (0) 10206136 (by norm_num) (by norm_num) (by norm_num)
        (roundNearestEven_of_abs_lt _ _ (by rw [abs_lt]; constructor <;> norm_num))]
      norm_num)
  have h74 : lifeTimeAfter 0 (List.replicate 74 sixtieth) = (5172973 / 4194304 : ℚ) :=
    (lifeTimeAfter_replicate_succ 0 sixtieth 73).trans (by
      rw [h73, hd, roundToFloat_eval ((1275767 / 1048576 : ℚ) + (8947849 / 536870912 : ℚ)) (0) 10345946 (by norm_num) (by norm_num) (by norm_num)
        (roundNearestEven_of_abs_lt _ _ (by rw [abs_lt]; constructor <;> norm_num))]
      norm_num)
  have h75 : lifeTimeAfter 0 (List.replicate 75 sixtieth) = (2621439 / 2097152 : ℚ) :=
    (lifeTimeAfter_replicate_succ 0 sixtieth 74).trans (by
      rw [h74, hd, roundToFloat_eval ((5172973 / 4194304 : ℚ) + (8947849 / 536870912 : ℚ)) (0) 10485756 (by norm_num) (by norm_num) (by norm_num)
        (roundNearestEven_of_abs_lt _ _ (by rw [abs_lt]; constructor <;> norm_num))]
      norm_num)
  have h76 : lifeTimeAfter 0 (List.replicate 76 sixtieth) = (5312783 / 4194304 : ℚ) :=
    (lifeTimeAfter_replicate_succ 0 sixtieth 75).trans (by
      rw [h75, hd, roundToFloat_eval ((2621439 / 2097152 : ℚ) + (8947849 / 536870912 : ℚ)) (0) 10625566 (by norm_num) (by norm_num) (by norm_num)
        (roundNearestEven_of_abs_lt _ _ (by rw [abs_lt]; constructor <;> norm_num))]
      norm_num)
  have h77 : lifeTimeAfter 0 (List.replicate 77 sixtieth) = (168209 / 131072 : ℚ) :=
    (lifeTimeAfter_replicate_succ 0 sixtieth 76).trans (by
      rw [h76, hd, roundToFloat_eval ((5312783 / 4194304 : ℚ) + (8947849 / 536870912 : ℚ)) (0) 10765376 (by norm_num) (by norm_num) (by norm_num)
        (roundNearestEven_of_abs_lt _ _ (by rw [abs_lt]; constructor <;> norm_num))]
      norm_num)
  have h78 : lifeTimeAfter 0 (List.replicate 78 sixtieth) = (5452593 / 4194304 : ℚ) :=
    (lifeTimeAfter_replicate_succ 0 sixtieth 77).trans (by
      rw [h77, hd, roundToFloat_eval ((168209 / 131072 : ℚ) + (8947849 / 536870912 : ℚ)) (0) 10905186 (by norm_num) (by norm_num) (by norm_num)
        (roundNearestEven_of_abs_lt _ _ (by rw [abs_lt]; constructor <;> norm_num))]
      norm_num)
  have h79 : lifeTimeAfter 0 (List.replicate 79 sixtieth) = (2761249 / 2097152 : ℚ) :=
    (lifeTimeAfter_replicate_succ 0 sixtieth 78).trans (by
      rw [h78, hd, roundToFloat_eval ((5452593 / 4194304 : ℚ) + (8947849 / 536870912 : ℚ)) (0) 11044996 (by norm_num) (by norm_num) (by norm_num)
        (roundNearestEven_of_abs_lt _ _ (by rw [abs_lt]; constructor <;> norm_num))]
      norm_num)
  have h80 : lifeTimeAfter 0 (List.replicate 80 sixtieth) = (5592403 / 4194304 : ℚ) :=
    (lifeTimeAfter_replicate_succ 0 sixtieth 79).trans (by
      rw [h79, hd, roundToFloat_eval ((2761249 / 2097152 : ℚ) + (8947849 / 536870912 : ℚ)) (0) 11184806 (by norm_num) (by norm_num) (by norm_num)
        (roundNearestEven_of_abs_lt _ _ (by rw [abs_lt]; constructor <;> norm_num))]
      norm_num)
  have h81 : lifeTimeAfter 0 (List.replicate 81 sixtieth) = (1415577 / 1048576 : ℚ) :=
    (lifeTimeAfter_replicate_succ 0 sixtieth 80).trans (by
      rw [h80, hd, roundToFloat_eval ((5592403 / 4194304 : ℚ) + (8947849 / 536870912 : ℚ)) (0) 11324616 (by norm_num) (by norm_num) (by norm_num)
        (roundNearestEven_of_abs_lt _ _ (by rw [abs_lt]; constructor <;> norm_num))]
      norm_num)
  have h82 : lifeTimeAfter 0 (List.replicate 82 sixtieth) = (5732213 / 4194304 : ℚ) :=
    (lifeTimeAfter_replicate_succ 0 sixtieth 81).trans (by
      rw [h81, hd, roundToFloat_eval ((1415577 / 1048576 : ℚ) + (8947849 / 536870912 : ℚ)) (0) 11464426 (by norm_num) (by norm_num) (by norm_num)
        (roundNearestEven_of_abs_lt _ _ (by rw [abs_lt]; constructor <;> norm_num))]
      norm_num)
  have h83 : lifeTimeAfter 0 (List.replicate 83 sixtieth) = (2901059 / 2097152 : ℚ) :=
    (lifeTimeAfter_replicate_succ 0 sixtieth 82).trans (by
      rw [h82, hd, roundToFloat_eval ((5732213 / 4194304 : ℚ) + (8947849 / 536870912 : ℚ)) (0) 11604236 (by norm_num) (by norm_num) (by norm_num)
        (roundNearestEven_of_abs_lt _ _ (by rw [abs_lt]; constructor <;> norm_num))]
      norm_num)
  have h84 : lifeTimeAfter 0 (List.replicate 84 sixtieth) = (5872023 / 4194304 : ℚ) :=
    (lifeTimeAfter_replicate_succ 0 sixtieth 83).trans (by
      rw [h83, hd, roundToFloat_eval ((2901059 / 2097152 : ℚ) + (8947849 / 536870912 : ℚ)) (0) 11744046 (by norm_num) (by norm_num) (by norm_num)
        (roundNearestEven_of_abs_lt _ _ (by rw [abs_lt]; constructor <;> norm_num))]
      norm_num)
  have h85 : lifeTimeAfter 0 (List.replicate 85 sixtieth) = (742741 / 524288 : ℚ) :=
    (lifeTimeAfter_replicate_succ 0 sixtieth 84).trans (by
      rw [h84, hd, roundToFloat_eval ((5872023 / 4194304 : ℚ) + (8947849 / 536870912 : ℚ)) (0) 11883856 (by norm_num) (by norm_num) (by norm_num)
        (roundNearestEven_of_abs_lt _ _ (by rw [abs_lt]; constructor <;> norm_num))]
      norm_num)
  have h86 : lifeTimeAfter 0 (List.replicate 86 sixtieth) = (6011833 / 4194304 : ℚ) :=
    (lifeTimeAfter_replicate_succ 0 sixtieth 85).trans (by
      rw [h85, hd, roundToFloat_eval ((742741 / 524288 : ℚ) + (8947849 / 536870912 : ℚ)) (0) 12023666 (by norm_num) (by norm_num) (by norm_num)
        (roundNearestEven_of_abs_lt _ _ (by rw [abs_lt]; constructor <;> norm_num))]
      norm_num)
  have h87 : lifeTimeAfter 0 (List.replicate 87 sixtieth) = (3040869 / 2097152 : ℚ) :=
    (lifeTimeAfter_replicate_succ 0 sixtieth 86).trans (by
      rw [h86, hd, roundToFloat_eval ((6011833 / 4194304 : ℚ) + (8947849 / 536870912 : ℚ)) (0) 12163476 (by norm_num) (by norm_num) (by norm_num)
        (roundNearestEven_of_abs_lt _ _ (by rw [abs_lt]; constructor <;> norm_num))]
      norm_num)
  have h88 : lifeTimeAfter 0 (List.replicate 88 sixtieth) = (6151643 / 4194304 : ℚ) :=
    (lifeTimeAfter_replicate_succ 0 sixtieth 87).trans (by
      rw [h87, hd, roundToFloat_eval ((3040869 / 2097152 : ℚ) + (8947849 / 536870912 : ℚ)) (0) 12303286 (by norm_num) (by norm_num) (by norm_num)
        (roundNearestEven_of_abs_lt _ _ (by rw [abs_lt]; constructor <;> norm_num))]
      norm_num)
  have h89 : lifeTimeAfter 0 (List.replicate 89 sixtieth) = (1555387 / 1048576 : ℚ) :=
    (lifeTimeAfter_replicate_succ 0 sixtieth 88).trans (by
      rw [h88, hd, roundToFloat_eval ((6151643 / 4194304 : ℚ) + (8947849 / 536870912 : ℚ)) (0) 12443096 (by norm_num) (by norm_num) (by norm_num)
        (roundNearestEven_of_abs_lt _ _ (by rw [abs_lt]; constructor <;> norm_num))]
      norm_num)
  have h90 : lifeTimeAfter 0 (List.replicate 90 sixtieth) = (6291453 / 4194304 : ℚ) :=
    (lifeTimeAfter_replicate_succ 0 sixtieth 89).trans (by
      rw [h89, hd, roundToFloat_eval ((1555387 / 1048576 : ℚ) + (8947849 / 536870912 : ℚ)) (0) 12582906 (by norm_num) (by norm_num) (by norm_num)
        (roundNearestEven_of_abs_lt _ _ (by rw [abs_lt]; constructor <;> norm_num))]
      norm_num)
  have h91 : lifeTimeAfter 0 (List.replicate 91 sixtieth) = (3180679 / 2097152 : ℚ) :=
    (lifeTimeAfter_replicate_succ 0 sixtieth 90).trans (by
      rw [h90, hd, roundToFloat_eval ((6291453 / 4194304 : ℚ) + (8947849 / 536870912 : ℚ)) (0) 12722716 (by norm_num) (by norm_num) (by norm_num)
        (roundNearestEven_of_abs_lt _ _ (by rw [abs_lt]; constructor <;> norm_num))]
      norm_num)
  have h92 : lifeTimeAfter 0 (List.replicate 92 sixtieth) = (6431263 / 4194304 : ℚ) :=
    (lifeTimeAfter_replicate_succ 0 sixtieth 91).trans (by
      rw [h91, hd, roundToFloat_eval ((3180679 / 2097152 : ℚ) + (8947849 / 536870912 : ℚ)) (0) 12862526 (by norm_num) (by norm_num) (by norm_num)
        (roundNearestEven_of_abs_lt _ _ (by rw [abs_lt]; constructor <;> norm_num))]
      norm_num)
  have h93 : lifeTimeAfter 0 (List.replicate 93 sixtieth) = (406323 / 262144 : ℚ) :=
    (lifeTimeAfter_replicate_succ 0 sixtieth 92).trans (by
      rw [h92, hd, roundToFloat_eval ((6431263 / 4194304 : ℚ) + (8947849 / 536870912 : ℚ)) (0) 13002336 (by norm_num) (by norm_num) (by norm_num)
        (roundNearestEven_of_abs_lt _ _ (by rw [abs_lt]; constructor <;> norm_num))]
      norm_num)
  have h94 : lifeTimeAfter 0 (List.replicate 94 sixtieth) = (6571073 / 4194304 : ℚ) :=
    (lifeTimeAfter_replicate_succ 0 sixtieth 93).trans (by
      rw [h93, hd, roundToFloat_eval ((406323 / 262144 : ℚ) + (8947849 / 536870912 : ℚ)) (0) 13142146 (by norm_num) (by norm_num) (by norm_num)
        (roundNearestEven_of_abs_lt _ _ (by rw [abs_lt]; constructor <;> norm_num))]
      norm_num)
  have h95 : lifeTimeAfter 0 (List.replicate 95 sixtieth) = (3320489 / 2097152 : ℚ) :=
    (lifeTimeAfter_replicate_succ 0 sixtieth 94).trans (by
      rw [h94, hd, roundToFloat_eval ((6571073 / 4194304 : ℚ) + (8947849 / 536870912 : ℚ)) (0) 13281956 (by norm_num) (by norm_num) (by norm_num)
        (roundNearestEven_of_abs_lt _ _ (by rw [abs_lt]; constructor <;> norm_num))]
      norm_num)
  have h96 : lifeTimeAfter 0 (List.replicate 96 sixtieth) = (6710883 / 4194304 : ℚ) :=
    (lifeTimeAfter_replicate_succ 0 sixtieth 95).trans (by
      rw [h95, hd, roundToFloat_eval ((3320489 / 2097152 : ℚ) + (8947849 / 536870912 : ℚ)) (0) 13421766 (by norm_num) (by norm_num) (by norm_num)
        (roundNearestEven_of_abs_lt _ _ (by rw [abs_lt]; constructor <;> norm_num))]
      norm_num)
  have h97 : lifeTimeAfter 0 (List.replicate 97 sixtieth) = (1695197 / 1048576 : ℚ) :=
    (lifeTimeAfter_replicate_succ 0 sixtieth 96).trans (by
      rw [h96, hd, roundToFloat_eval ((6710883 / 4194304 : ℚ) + (8947849 / 536870912 : ℚ)) (0) 13561576 (by norm_num) (by norm_num) (by norm_num)
        (roundNearestEven_of_abs_lt _ _ (by rw [abs_lt]; constructor <;> norm_num))]
      norm_num)
  have h98 : lifeTimeAfter 0 (List.replicate 98 sixtieth) = (6850693 / 4194304 : ℚ) :=
    (lifeTimeAfter_replicate_succ 0 sixtieth 97).trans (by
      rw [h97, hd, roundToFloat_eval ((1695197 / 1048576 : ℚ) + (8947849 / 536870912 : ℚ)) (0) 13701386 (by norm_num) (by norm_num) (by norm_num)
        (roundNearestEven_of_abs_lt _ _ (by rw [abs_lt]; constructor <;> norm_num))]
      norm_num)
  have h99 : lifeTimeAfter 0 (List.replicate 99 sixtieth) = (3460299 / 2097152 : ℚ) :=
    (lifeTimeAfter_replicate_succ 0 sixtieth 98).trans (by
      rw [h98, hd, roundToFloat_eval ((6850693 / 4194304 : ℚ) + (8947849 / 536870912 : ℚ)) (0) 13841196 (by norm_num) (by norm_num) (by norm_num)
        (roundNearestEven_of_abs_lt _ _ (by rw [abs_lt]; constructor <;> norm_num))]
      norm_num)
  have h100 : lifeTimeAfter 0 (List.replicate 100 sixtieth) = (6990503 / 4194304 : ℚ) :=
    (lifeTimeAfter_replicate_succ 0 sixtieth 99).trans (by
      rw [h99, hd, roundToFloat_eval ((3460299 / 2097152 : ℚ) + (8947849 / 536870912 : ℚ)) (0) 13981006 (by norm_num) (by norm_num) (by norm_num)
        (roundNearestEven_of_abs_lt _ _ (by rw [abs_lt]; constructor <;> norm_num))]
      norm_num)
  have h101 : lifeTimeAfter 0 (List.replicate 101 sixtieth) = (882551 / 524288 : ℚ) :=
    (lifeTimeAfter_replicate_succ 0 sixtieth 100).trans (by
      rw [h100, hd, roundToFloat_eval ((6990503 / 4194304 : ℚ) + (8947849 / 536870912 : ℚ)) (0) 14120816 (by norm_num) (by norm_num) (by norm_num)
        (roundNearestEven_of_abs_lt _ _ (by rw [abs_lt]; constructor <;> norm_num))]
      norm_num)
  have h102 : lifeTimeAfter 0 (List.replicate 102 sixtieth) = (7130313 / 4194304 : ℚ) :=
    (lifeTimeAfter_replicate_succ 0 sixtieth 101).trans (by
      rw [h101, hd, roundToFloat_eval ((882551 / 524288 : ℚ) + (8947849 / 536870912 : ℚ)) (0) 14260626 (by norm_num) (by norm_num) (by norm_num)
        (roundNearestEven_of_abs_lt _ _ (by rw [abs_lt]; constructor <;> norm_num))]
      norm_num)
  have h103 : lifeTimeAfter 0 (List.replicate 103 sixtieth) = (3600109 / 2097152 : ℚ) :=
    (lifeTimeAfter_replicate_succ 0 sixtieth 102).trans (by
      rw [h102, hd, roundToFloat_eval ((7130313 / 4194304 : ℚ) + (8947849 / 536870912 : ℚ)) (0) 14400436 (by norm_num) (by norm_num) (by norm_num)
        (roundNearestEven_of_abs_lt _ _ (by rw [abs_lt]; constructor <;> norm_num))]
      norm_num)
  have h104 : lifeTimeAfter 0 (List.replicate 104 sixtieth) = (7270123 / 4194304 : ℚ) :=
    (lifeTimeAfter_replicate_succ 0 sixtieth 103).trans (by
      rw [h103, hd, roundToFloat_eval ((3600109 / 2097152 : ℚ) + (8947849 / 536870912 : ℚ)) (0) 14540246 (by norm_num) (by norm_num) (by norm_num)
        (roundNearestEven_of_abs_lt _ _ (by rw [abs_lt]; constructor <;> norm_num))]
      norm_num)
  have h105 : lifeTimeAfter 0 (List.replicate 105 sixtieth) = (1835007 / 1048576 : ℚ) :=
    (lifeTimeAfter_replicate_succ 0 sixtieth 104).trans (by
      rw [h104, hd, roundToFloat_eval ((7270123 / 4194304 : ℚ) + (8947849 / 536870912 : ℚ)) (0) 14680056 (by norm_num) (by norm_num) (by norm_num)
        (roundNearestEven_of_abs_lt _ _ (by rw [abs_lt]; constructor <;> norm_num))]
      norm_num)
  have h106 : lifeTimeAfter 0 (List.replicate 106 sixtieth) = (7409933 / 4194304 : ℚ) :=
    (lifeTimeAfter_replicate_succ 0 sixtieth 105).trans (by
      rw [h105, hd, roundToFloat_eval ((1835007 / 1048576 : ℚ) + (8947849 / 536870912 : ℚ)) (0) 14819866 (by norm_num) (by norm_num) (by norm_num)
        (roundNearestEven_of_abs_lt _ _ (by rw [abs_lt]; constructor <;> norm_num))]
      norm_num)
  have h107 : lifeTimeAfter 0 (List.replicate 107 sixtieth) = (3739919 / 2097152 : ℚ) :=
    (lifeTimeAfter_replicate_succ 0 sixtieth 106).trans (by
      rw [h106, hd, roundToFloat_eval ((7409933 / 4194304 : ℚ) + (8947849 / 536870912 : ℚ)) (0) 14959676 (by norm_num) (by norm_num) (by norm_num)
        (roundNearestEven_of_abs_lt _ _ (by rw [abs_lt]; constructor <;> norm_num))]
      norm_num)
  have h108 : lifeTimeAfter 0 (List.replicate 108 sixtieth) = (7549743 / 4194304 : ℚ) :=
    (lifeTimeAfter_replicate_succ 0 sixtieth 107).trans (by
      rw [h107, hd, roundToFloat_eval ((3739919 / 2097152 : ℚ) + (8947849 / 536870912 : ℚ)) (0) 15099486 (by norm_num) (by norm_num) (by norm_num)
        (roundNearestEven_of_abs_lt _ _ (by rw [abs_lt]; constructor <;> norm_num))]
      norm_num)
  have h109 : lifeTimeAfter 0 (List.replicate 109 sixtieth) = (119057 / 65536 : ℚ) :=
    (lifeTimeAfter_replicate_succ 0 sixtieth 108).trans (by
      rw [h108, hd, roundToFloat_eval ((7549743 / 4194304 : ℚ) + (8947849 / 536870912 : ℚ)) (0) 15239296 (by norm_num) (by norm_num) (by norm_num)
        (roundNearestEven_of_abs_lt _ _ (by rw [abs_lt]; constructor <;> norm_num))]
      norm_num)
  have h110 : lifeTimeAfter 0 (List.replicate 110 sixtieth) = (7689553 / 4194304 : ℚ) :=
    (lifeTimeAfter_replicate_succ 0 sixtieth 109).trans (by
      rw [h109, hd, roundToFloat_eval ((119057 / 65536 : ℚ) + (8947849 / 536870912 : ℚ)) (0) 15379106 (by norm_num) (by norm_num) (by norm_num)
        (roundNearestEven_of_abs_lt _ _ (by rw [abs_lt]; constructor <;> norm_num))]
      norm_num)
  have h111 : lifeTimeAfter 0 (List.replicate 111 sixtieth) = (3879729 / 2097152 : ℚ) :=
    (lifeTimeAfter_replicate_succ 0 sixtieth 110).trans (by
      rw [h110, hd, roundToFloat_eval ((7689553 / 4194304 : ℚ) + (8947849 / 536870912 : ℚ)) (0) 15518916 (by norm_num) (by norm_num) (by norm_num)
        (roundNearestEven_of_abs_lt _ _ (by rw [abs_lt]; constructor <;> norm_num))]
      norm_num)
  have h112 : lifeTimeAfter 0 (List.replicate 112 sixtieth) = (7829363 / 4194304 : ℚ) :=
    (lifeTimeAfter_replicate_succ 0 sixtieth 111).trans (by
      rw [h111, hd, roundToFloat_eval ((3879729 / 2097152 : ℚ) + (8947849 / 536870912 : ℚ)) (0) 15658726 (by norm_num) (by norm_num) (by norm_num)
        (roundNearestEven_of_abs_lt _ _ (by rw [abs_lt]; constructor <;> norm_num))]
      norm_num)
  have h113 : lifeTimeAfter 0 (List.replicate 113 sixtieth) = (1974817 / 1048576 : ℚ) :=
    (lifeTimeAfter_replicate_succ 0 sixtieth 112).trans (by
      rw [h112, hd, roundToFloat_eval ((7829363 / 4194304 : ℚ) + (8947849 / 536870912 : ℚ)) (0) 15798536 (by norm_num) (by norm_num) (by norm_num)
        (roundNearestEven_of_abs_lt _ _ (by rw [abs_lt]; constructor <;> norm_num))]
      norm_num)
  have h114 : lifeTimeAfter 0 (List.replicate 114 sixtieth) = (7969173 / 4194304 : ℚ) :=
    (lifeTimeAfter_replicate_succ 0 sixtieth 113).trans (by
      rw [h113, hd, roundToFloat_eval ((1974817 / 1048576 : ℚ) + (8947849 / 536870912 : ℚ)) (0) 15938346 (by norm_num) (by norm_num) (by norm_num)
        (roundNearestEven_of_abs_lt _ _ (by rw [abs_lt]; constructor <;> norm_num))]
      norm_num)
  have h115 : lifeTimeAfter 0 (List.replicate 115 sixtieth) = (4019539 / 2097152 : ℚ) :=
    (lifeTimeAfter_replicate_succ 0 sixtieth 114).trans (by
      rw [h114, hd, roundToFloat_eval ((7969173 / 4194304 : ℚ) + (8947849 / 536870912 : ℚ)) (0) 16078156 (by norm_num) (by norm_num) (by norm_num)
        (roundNearestEven_of_abs_lt _ _ (by rw [abs_lt]; constructor <;> norm_num))]
      norm_num)
  have h116 : lifeTimeAfter 0 (List.replicate 116 sixtieth) = (8108983 / 4194304 : ℚ) :=
    (lifeTimeAfter_replicate_succ 0 sixtieth 115).trans (by
      rw [h115, hd, roundToFloat_eval ((4019539 / 2097152 : ℚ) + (8947849 / 536870912 : ℚ)) (0) 16217966 (by norm_num) (by norm_num) (by norm_num)
        (roundNearestEven_of_abs_lt _ _ (by rw [abs_lt]; constructor <;> norm_num))]
      norm_num)
  have h117 : lifeTimeAfter 0 (List.replicate 117 sixtieth) = (1022361 / 524288 : ℚ) :=
    (lifeTimeAfter_replicate_succ 0 sixtieth 116).trans (by
      rw [h116, hd, roundToFloat_eval ((8108983 / 4194304 : ℚ) + (8947849 / 536870912 : ℚ)) (0) 16357776 (by norm_num) (by norm_num) (by norm_num)
        (roundNearestEven_of_abs_lt _ _ (by rw [abs_lt]; constructor <;> norm_num))]
      norm_num)
  have h118 : lifeTimeAfter 0 (List.replicate 118 sixtieth) = (8248793 / 4194304 : ℚ) :=
    (lifeTimeAfter_replicate_succ 0 sixtieth 117).trans (by
      rw [h117, hd, roundToFloat_eval ((1022361 / 524288 : ℚ) + (8947849 / 536870912 : ℚ)) (0) 16497586 (by norm_num) (by norm_num) (by norm_num)
        (roundNearestEven_of_abs_lt _ _ (by rw [abs_lt]; constructor <;> norm_num))]
      norm_num)
  have h119 : lifeTimeAfter 0 (List.replicate 119 sixtieth) = (4159349 / 2097152 : ℚ) :=
    (lifeTimeAfter_replicate_succ 0 sixtieth 118).trans (by
      rw [h118, hd, roundToFloat_eval ((8248793 / 4194304 : ℚ) + (8947849 / 536870912 : ℚ)) (0) 16637396 (by norm_num) (by norm_num) (by norm_num)
        (roundNearestEven_of_abs_lt _ _ (by rw [abs_lt]; constructor <;> norm_num))]
      norm_num)
  have h120 : lifeTimeAfter 0 (List.replicate 120 sixtieth) = (8388603 / 4194304 : ℚ) :=
    (lifeTimeAfter_replicate_succ 0 sixtieth 119).trans (by
      rw [h119, hd, roundToFloat_eval ((4159349 / 2097152 : ℚ) + (8947849 / 536870912 : ℚ)) (0) 16777206 (by norm_num) (by norm_num) (by norm_num)
        (roundNearestEven_of_abs_lt _ _ (by rw [abs_lt]; constructor <;> norm_num))]
      norm_num)
  have h121 : lifeTimeAfter 0 (List.replicate 121 sixtieth) = (2114627 / 1048576 : ℚ) :=
    (lifeTimeAfter_replicate_succ 0 sixtieth 120).trans (by
      rw [h120, hd, roundToFloat_eval ((8388603 / 4194304 : ℚ) + (8947849 / 536870912 : ℚ)) (1) 8458508 (by norm_num) (by norm_num) (by norm_num)
        (roundNearestEven_of_abs_lt _ _ (by rw [abs_lt]; constructor <;> norm_num))]
      norm_num)
  exact ⟨h120, h121⟩

theorem longestParticle_maxLifeTime : longestParticle.maxLifeTime = 2 := by
  norm_num [longestParticle, GetRandomFloat, fullEnv]

theorem sixtieth_nonneg : 0 ≤ sixtieth := by
  rw [sixtieth_eq]
  norm_num

/-- C2, as stated, fails: `AddParticles` with `rand() = RAND_MAX` creates 5 particles of
maximum life time 2; 120 frame times of (float)(1/60) are not negative and sum to more
than 2, yet after the 120 `Update`s all 5 particles are still in the collection, with
the float-accumulated life time 8388603/4194304 (about 1.9999988). -/
theorem C2_sixty_fps_counterexample :
    (∀ d ∈ List.replicate 120 sixtieth, 0 ≤ d)
      ∧ ((ParticleSystem.mk []).AddParticles fullEnv ⟨0, 0, 0⟩ BLUE 5 0).1.particles
          = List.replicate 5 longestParticle
      ∧ longestParticle.lifeTime = 0
      ∧ longestParticle.maxLifeTime ≤ (List.replicate 120 sixtieth).sum
      ∧ ((((ParticleSystem.mk []).AddParticles fullEnv ⟨0, 0, 0⟩ BLUE 5 0).1.UpdateMany
          (List.replicate 120 sixtieth)).particles
          = List.replicate 5 (longestParticle.advanceMany (List.replicate 120 sixtieth)))
      ∧ (longestParticle.advanceMany (List.replicate 120 sixtieth)).lifeTime
          = 8388603 / 4194304 := by
  have hnn : ∀ d ∈ List.replicate 120 sixtieth, 0 ≤ d := by
    intro d hd
    rw [List.eq_of_mem_replicate hd]
    exact sixtieth_nonneg
  have hadd : ((ParticleSystem.mk []).AddParticles fullEnv ⟨0, 0, 0⟩ BLUE 5 0).1.particles
      = List.replicate 5 longestParticle := rfl
  have hlife : longestParticle.lifeTime = 0 := rfl
  have hacc : lifeTimeAfter longestParticle.lifeTime (List.replicate 120 sixtieth)
      = 8388603 / 4194304 := by
    rw [hlife]
    exact lifeTimeAfter_sixtieth.1
  refine ⟨hnn, hadd, hlife, ?_, ?_, ?_⟩
  · rw [longestParticle_maxLifeTime, List.sum_replicate, sixtieth_eq]
    norm_num
  · rw [UpdateMany_particles, hadd, stepsList_all_survive _ _ hnn]
    · simp
    · intro p hp
      rw [List.eq_of_mem_replicate hp, hacc, longestParticle_maxLifeTime, hlife]
      exact ⟨roundToFloat_zero, by norm_num⟩
  · rw [(advanceMany_lifeTime _ _).1, hacc]

/-- C2 (amended): for a particle in a collection the program can hold and `N` calls of
`Update` with frame times that are not negative, the particle is absent afterwards
exactly when the life time accumulated in binary32 by those `Update`s has reached
`maxLifeTime`: then the collection is what it would be had the particle never been in
it, and otherwise the particle is kept, stepped once by each `Update`.  In particular
the 5 particles that `AddParticles` creates in the empty collection (given
`rand() ≤ RAND_MAX`) are all gone after 121 or more `Update`s with the frame time
(float)(1/60). -/
theorem C2_particle_absent_iff_float_lifeTime_reaches_max (env : Env) (ps : ParticleSystem)
    (hreach : ps.Reachable env) (before after : List Particle) (p : Particle)
    (hps : ps.particles = before ++ p :: after) (frameTimes : List ℚ)
    (hnn : ∀ d ∈ frameTimes, 0 ≤ d)
    (hrand : ∀ j, env.rand j ≤ env.RAND_MAX) (hmax : 0 < env.RAND_MAX)
    (position : Vector3) (color : Color) (k n : Nat) (hn : 121 ≤ n) :
    (p.maxLifeTime ≤ lifeTimeAfter p.lifeTime frameTimes →
        (ps.UpdateMany frameTimes).particles
            = ((ParticleSystem.mk (before ++ after)).UpdateMany frameTimes).particles
          ∧ ((ParticleSystem.mk [p]).UpdateMany frameTimes).particles = [])
      ∧ (lifeTimeAfter p.lifeTime frameTimes < p.maxLifeTime →
        ((ParticleSystem.mk [p]).UpdateMany frameTimes).particles
          = [p.advanceMany frameTimes])
      ∧ (((ParticleSystem.mk []).AddParticles env position color 5 k).1.particles.length = 5
        ∧ ((((ParticleSystem.mk []).AddParticles env position color 5 k).1.UpdateMany
            (List.replicate n sixtieth)).particles = [])) := by
  have hb := Reachable_particle_bounds env ps hreach p (by rw [hps]; simp)
  refine ⟨?_, ?_, ?_, ?_⟩
  · intro hsum
    have hne : frameTimes ≠ [] := by
      intro h0
      subst h0
      have : lifeTimeAfter p.lifeTime [] = p.lifeTime := rfl
      rw [this] at hsum
      linarith [hb.2.2.2]
    have hone : stepsList frameTimes [p] = [] :=
      stepsList_singleton_expired frameTimes p hne hsum
    constructor
    · rw [UpdateMany_particles, UpdateMany_particles, hps]
      have happ : before ++ p :: after = before ++ ([p] ++ after) := by simp
      rw [happ, stepsList_append, stepsList_append, hone, stepsList_append]
      simp
    · rw [UpdateMany_particles]
      exact hone
  · intro hlt
    rw [UpdateMany_particles]
    exact stepsList_singleton_survives frameTimes p hb.2.2.1 hnn hlt
  · simp [ParticleSystem.AddParticles, ParticleSystem.AddParticles.loop]
  · rw [UpdateMany_particles]
    have hsplit : List.replicate n sixtieth
        = List.replicate 121 sixtieth ++ List.replicate (n - 121) sixtieth := by
      have h := List.replicate_add 121 (n - 121) sixtieth
      rw [show 121 + (n - 121) = n by omega] at h
      exact h
    rw [hsplit, stepsList_concat]
    have h121 : stepsList (List.replicate 121 sixtieth)
        ((ParticleSystem.mk []).AddParticles env position color 5 k).1.particles = [] := by
      apply stepsList_all_expired
      · intro h0
        have := congrArg List.length h0
        rw [List.length_replicate, List.length_nil] at this
        omega
      · intro q hq
        simp only [ParticleSystem.AddParticles] at hq
        rcases AddParticles_loop_mem env position color _ _ _ q hq with h1 | h1
        · simp at h1
        · rw [h1.1, lifeTimeAfter_sixtieth.2]
          have h2 := h1.2.2 hrand hmax
          have h3 : (2 : ℚ) ≤ 2114627 / 1048576 := by norm_num
          linarith
    rw [h121, stepsList_nil]

/-- C2 (amended) at the sample particle (maximum life time 1): absent after one `Update` of
one second, kept by one `Update` of half a second; and 5 particles from `AddParticles`
with 121 `Update`s of (float)(1/60). -/
theorem C2_particle_absent_iff_float_lifeTime_reaches_max_witness :
    ((((ParticleSystem.mk []).AddParticles sampleEnv ⟨0, 0, 0⟩ BLUE 1 0).1.UpdateMany
          [1]).particles
          = ((ParticleSystem.mk ([] ++ [])).UpdateMany [1]).particles
        ∧ ((ParticleSystem.mk [sampleParticle]).UpdateMany [1]).particles = [])
      ∧ (((ParticleSystem.mk [sampleParticle]).UpdateMany [1 / 2]).particles
          = [sampleParticle.advanceMany [1 / 2]])
      ∧ (((ParticleSystem.mk []).AddParticles sampleEnv ⟨1, 2, 3⟩ GOLD 5 7).1.particles.length
            = 5
        ∧ ((((ParticleSystem.mk []).AddParticles sampleEnv ⟨1, 2, 3⟩ GOLD 5 7).1.UpdateMany
            (List.replicate 121 sixtieth)).particles = [])) := by
  have hmax : sampleParticle.maxLifeTime = 1 := by
    norm_num [sampleParticle, GetRandomFloat]
  have hlife : sampleParticle.lifeTime = 0 := rfl
  have hreach : ((ParticleSystem.mk []).AddParticles sampleEnv ⟨0, 0, 0⟩ BLUE 1 0).1.Reachable
      sampleEnv := ParticleSystem.Reachable.add _ _ _ _ _ ParticleSystem.Reachable.init
  have hone : lifeTimeAfter sampleParticle.lifeTime [1] = 1 := by
    rw [hlife]
    show roundToFloat (0 + 1) = 1
    rw [roundToFloat_eval (0 + 1) 0 8388608 (by norm_num) (by norm_num) (by norm_num)
      (roundNearestEven_of_abs_lt _ _ (by rw [abs_lt]; constructor <;> norm_num))]
    norm_num
  have hhalf : lifeTimeAfter sampleParticle.lifeTime [1 / 2] = 1 / 2 := by
    rw [hlife]
    show roundToFloat (0 + 1 / 2) = 1 / 2
    rw [roundToFloat_eval (0 + 1 / 2) (-1) 8388608 (by norm_num) (by norm_num) (by norm_num)
      (roundNearestEven_of_abs_lt _ _ (by rw [abs_lt]; constructor <;> norm_num))]
    norm_num
  have t1 := C2_particle_absent_iff_float_lifeTime_reaches_max sampleEnv _ hreach [] []
    sampleParticle rfl [1] (by intro d hd; simp at hd; rw [hd]; norm_num)
    (fun _ => by simp [sampleEnv]) (by simp [sampleEnv]) ⟨1, 2, 3⟩ GOLD 7 121 (le_refl _)
  have t2 := C2_particle_absent_iff_float_lifeTime_reaches_max sampleEnv _ hreach [] []
    sampleParticle rfl [1 / 2] (by intro d hd; simp at hd; rw [hd]; norm_num)
    (fun _ => by simp [sampleEnv]) (by simp [sampleEnv]) ⟨1, 2, 3⟩ GOLD 7 121 (le_refl _)
  exact ⟨t1.1 (by rw [hone, hmax]), t2.2.1 (by rw [hhalf, hmax]; norm_num), t1.2.2⟩
/-! ## The fade of the particle alpha -/

theorem toUChar_val_of_lt (n : Int) (h0 : 0 ≤ n) (h1 : n < 256) : (toUChar n).val = n.toNat := by
  simp only [toUChar]
  rw [Int.emod_eq_of_lt h0 h1]

theorem truncToInt_of_nonneg (x : ℚ) (h : 0 ≤ x) : truncToInt x = ⌊x⌋ := by
  simp [truncToInt, h]

theorem Lerp_self (c amount : ℚ) : Lerp c c amount = c := by
  simp [Lerp]

theorem Vector3Lerp_self (v : Vector3) (amount : ℚ) : Vector3Lerp v v amount = v := by
  simp [Vector3Lerp, Lerp_self]

theorem floatToUChar_toFloat (c : UChar) : floatToUChar c.toFloat = c := by
  have h0 : (0 : ℚ) ≤ (c.val : ℚ) := Nat.cast_nonneg _
  simp only [floatToUChar, UChar.toFloat, truncToInt_of_nonneg _ h0, Int.floor_natCast]
  apply Fin.ext
  rw [toUChar_val_of_lt _ (by omega) (by omega)]
  simp

/-- C7: on a menu item whose position, rotation, scale and colour equal their targets,
`MenuItem::Update` leaves position, rotation, scale and the four colour channels (indeed
the whole item) unchanged. -/
theorem C7_Update_fixed_at_target (m : MenuItem) (hp : m.position = m.targetPosition)
    (hr : m.rotation = m.targetRotation) (hs : m.scale = m.targetScale)
    (hc : m.color = m.targetColor) :
    m.Update.position = m.position ∧ m.Update.rotation = m.rotation
      ∧ m.Update.scale = m.scale
      ∧ m.Update.color.r = m.color.r ∧ m.Update.color.g = m.color.g
      ∧ m.Update.color.b = m.color.b ∧ m.Update.color.a = m.color.a
      ∧ m.Update = m := by
  have e1 : m.Update.position = m.position := by
    simp only [MenuItem.Update, ← hp, Vector3Lerp_self]
  have e2 : m.Update.rotation = m.rotation := by
    simp only [MenuItem.Update, ← hr, Vector3Lerp_self]
  have e3 : m.Update.scale = m.scale := by
    simp only [MenuItem.Update, ← hs, Vector3Lerp_self]
  have e4 : m.Update.color = m.color := by
    simp only [MenuItem.Update, ← hc, Lerp_self, floatToUChar_toFloat]
  refine ⟨e1, e2, e3, by rw [e4], by rw [e4], by rw [e4], by rw [e4], ?_⟩
  cases m
  simp only [MenuItem.Update] at e1 e2 e3 e4 ⊢
  simp only [MenuItem.mk.injEq, true_and, and_true]
  exact ⟨e1, e2, e3, e4⟩

/-- C7 at the resting item. -/
theorem C7_Update_fixed_at_target_witness :
    restingItem.Update.position = restingItem.position
      ∧ restingItem.Update.rotation = restingItem.rotation
      ∧ restingItem.Update.scale = restingItem.scale
      ∧ restingItem.Update.color.r = restingItem.color.r
      ∧ restingItem.Update.color.g = restingItem.color.g
      ∧ restingItem.Update.color.b = restingItem.color.b
      ∧ restingItem.Update.color.a = restingItem.color.a
      ∧ restingItem.Update = restingItem :=
  C7_Update_fixed_at_target restingItem rfl rfl rfl rfl

/-- C8: on an unselected menu item, with target colour `DARKGRAY` and target scale `(1,1,1)`
as the constructor sets them, `SetSelected(true)` followed by `SetSelected(false)` leaves
the target colour and the target scale exactly as they were before the two calls. -/
theorem C8_select_then_deselect_restores (m : MenuItem) (hc : m.targetColor = DARKGRAY)
    (hs : m.targetScale = ⟨1.0, 1.0, 1.0⟩) :
    ((m.SetSelected true).SetSelected false).targetColor = m.targetColor
      ∧ ((m.SetSelected true).SetSelected false).targetScale = m.targetScale
      ∧ ((m.SetSelected true).SetSelected false).selected = false := by
  simp [MenuItem.SetSelected, hc, hs]

/-- C8 at the first menu item as constructed. -/
theorem C8_select_then_deselect_restores_witness :
    ((sampleItem.SetSelected true).SetSelected false).targetColor = sampleItem.targetColor
      ∧ ((sampleItem.SetSelected true).SetSelected false).targetScale = sampleItem.targetScale
      ∧ ((sampleItem.SetSelected true).SetSelected false).selected = false :=
  C8_select_then_deselect_restores sampleItem rfl rfl

/-- A channel less than 10 below its target is written back unchanged by the smoothing
of `MenuItem::Update`. -/
theorem channel_stalls (c t : UChar) (h1 : c.val < t.val) (h2 : t.val < c.val + 10) :
    floatToUChar (Lerp c.toFloat t.toFloat 0.1) = c := by
  have hc : (c.val : ℚ) < (t.val : ℚ) := by exact_mod_cast h1
  have ht : (t.val : ℚ) < (c.val : ℚ) + 10 := by exact_mod_cast h2
  have h0 : (0 : ℚ) ≤ (c.val : ℚ) := Nat.cast_nonneg _
  have hx0 : 0 ≤ Lerp c.toFloat t.toFloat 0.1 := by
    simp only [Lerp, UChar.toFloat]
    norm_num
    linarith
  have hfloor : ⌊Lerp c.toFloat t.toFloat 0.1⌋ = (c.val : Int) := by
    rw [Int.floor_eq_iff, Int.cast_natCast]
    have e : Lerp c.toFloat t.toFloat 0.1 = (c.val : ℚ) + 1 / 10 * ((t.val : ℚ) - (c.val : ℚ)) := by
      simp only [Lerp, UChar.toFloat]
      norm_num
    rw [e]
    constructor <;> linarith
  simp only [floatToUChar, truncToInt_of_nonneg _ hx0, hfloor]
  apply Fin.ext
  rw [toUChar_val_of_lt _ (by omega) (by omega)]
  simp

theorem Update_targetColor (m : MenuItem) : m.Update.targetColor = m.targetColor := rfl

theorem Update_iterate_targetColor (n : Nat) (m : MenuItem) :
    (MenuItem.Update^[n] m).targetColor = m.targetColor := by
  induction n generalizing m with
  | zero => rfl
  | succ n ih => rw [Function.iterate_succ_apply, ih, Update_targetColor]

/-- C10: for each of the four colour channels of a menu item, if the target value `t` and
the current value `c` satisfy `0 < t - c < 10`, `MenuItem::Update` leaves the channel
equal to `c`; the channel differs from its target and stays at `c` after any number of
further `Update`s. -/
theorem C10_channel_stalls_below_target (m : MenuItem) (channel : Color → UChar)
    (hch : channel ∈ [Color.r, Color.g, Color.b, Color.a])
    (h1 : 0 < ((channel m.targetColor).val : Int) - ((channel m.color).val : Int))
    (h2 : ((channel m.targetColor).val : Int) - ((channel m.color).val : Int) < 10) :
    channel m.Update.color = channel m.color
      ∧ channel m.color ≠ channel m.targetColor
      ∧ ∀ n : Nat, channel (MenuItem.Update^[n] m).color = channel m.color
          ∧ channel (MenuItem.Update^[n] m).color ≠ channel (MenuItem.Update^[n] m).targetColor := by
  have hstep : ∀ m : MenuItem,
      (channel m.color).val < (channel m.targetColor).val →
      (channel m.targetColor).val < (channel m.color).val + 10 →
      channel m.Update.color = channel m.color := by
    intro m a b
    simp only [List.mem_cons, List.mem_singleton, List.not_mem_nil, or_false] at hch
    rcases hch with h | h | h | h <;> subst h <;>
      simp only [MenuItem.Update] <;> exact channel_stalls _ _ a b
  have a1 : (channel m.color).val < (channel m.targetColor).val := by omega
  have a2 : (channel m.targetColor).val < (channel m.color).val + 10 := by omega
  have hne : channel m.color ≠ channel m.targetColor := by
    intro h
    rw [h] at a1
    exact lt_irrefl _ a1
  have hiter : ∀ n : Nat, channel (MenuItem.Update^[n] m).color = channel m.color := by
    intro n
    induction n with
    | zero => rfl
    | succ n ih =>
      rw [Function.iterate_succ_apply']
      have e := Update_iterate_targetColor n m
      rw [hstep _ (by rw [ih, e]; exact a1) (by rw [ih, e]; exact a2), ih]
  refine ⟨hstep m a1 a2, hne, fun n => ⟨hiter n, ?_⟩⟩
  rw [hiter n, Update_iterate_targetColor]
  exact hne

/-- C10 at the red channel of the stalled item (71 against the target 80). -/
theorem C10_channel_stalls_below_target_witness :
    Color.r stalledItem.Update.color = Color.r stalledItem.color
      ∧ Color.r stalledItem.color ≠ Color.r stalledItem.targetColor
      ∧ ∀ n : Nat, Color.r (MenuItem.Update^[n] stalledItem).color = Color.r stalledItem.color
          ∧ Color.r (MenuItem.Update^[n] stalledItem).color
            ≠ Color.r (MenuItem.Update^[n] stalledItem).targetColor :=
  C10_channel_stalls_below_target stalledItem Color.r (by simp) (by decide) (by decide)

/-! ## The main loop -/

theorem moveSelection_intro (env : Env) (next : Int) (s : Scene) :
    (moveSelection env next s).introAnimationComplete = s.introAnimationComplete
      ∧ (moveSelection env next s).introAnimationTimer = s.introAnimationTimer
      ∧ (moveSelection env next s).currentItem = next := by
  simp [moveSelection]

theorem pressEnter_intro (env : Env) (s : Scene) :
    (pressEnter env s).1.introAnimationComplete = s.introAnimationComplete
      ∧ (pressEnter env s).1.introAnimationTimer = s.introAnimationTimer
      ∧ (pressEnter env s).1.currentItem = s.currentItem := by
  unfold pressEnter
  split_ifs <;> simp

theorem idlePhase_intro (env : Env) (inp : FrameInput) (s : Scene) :
    (idlePhase env inp s).1.introAnimationComplete = s.introAnimationComplete
      ∧ (idlePhase env inp s).1.introAnimationTimer = s.introAnimationTimer := by
  unfold idlePhase
  simp only [pressRight, pressLeft]
  split_ifs <;> simp [moveSelection_intro, pressEnter_intro]

theorem introPhase_complete (env : Env) (inp : FrameInput) (s : Scene) :
    (introPhase env inp s).introAnimationComplete
      = (s.introAnimationComplete
          || decide (introAnimationDuration
              < roundToFloat (s.introAnimationTimer + inp.frameTime))) := by
  unfold introPhase
  by_cases hc : s.introAnimationComplete = true
  · simp [hc]
  · have hc0 : s.introAnimationComplete = false := by simpa using hc
    have e : (roundToFloat (s.introAnimationTimer + inp.frameTime) / introAnimationDuration
          > 1.0)
        ↔ introAnimationDuration < roundToFloat (s.introAnimationTimer + inp.frameTime) := by
      have h2 : (0 : ℚ) < introAnimationDuration := by norm_num [introAnimationDuration]
      rw [gt_iff_lt, show (1.0 : ℚ) = 1 by norm_num, lt_div_iff₀ h2, one_mul]
    simp only [hc0, Bool.not_false, if_true, Bool.false_or]
    by_cases h : introAnimationDuration < roundToFloat (s.introAnimationTimer + inp.frameTime)
    · simp [e.mpr h, h]
    · have h3 : ¬ (roundToFloat (s.introAnimationTimer + inp.frameTime)
          / introAnimationDuration > 1.0) := fun hh => h (e.mp hh)
      simp [h3, h]

theorem introPhase_timer (env : Env) (inp : FrameInput) (s : Scene) :
    (introPhase env inp s).introAnimationTimer
      = if s.introAnimationComplete then s.introAnimationTimer
        else roundToFloat (s.introAnimationTimer + inp.frameTime) := by
  unfold introPhase
  by_cases hc : s.introAnimationComplete = true
  · simp [hc]
  · have hc0 : s.introAnimationComplete = false := by simpa using hc
    simp [hc0]

theorem frame_complete (env : Env) (inp : FrameInput) (s : Scene) :
    (frame env inp s).1.introAnimationComplete
      = (s.introAnimationComplete
          || decide (introAnimationDuration
              < roundToFloat (s.introAnimationTimer + inp.frameTime))) := by
  rw [← introPhase_complete env inp s]
  unfold frame
  simp only
  split_ifs <;> simp [idlePhase_intro]

theorem frame_timer (env : Env) (inp : FrameInput) (s : Scene) :
    (frame env inp s).1.introAnimationTimer
      = if s.introAnimationComplete then s.introAnimationTimer
        else roundToFloat (s.introAnimationTimer + inp.frameTime) := by
  rw [← introPhase_timer env inp s]
  unfold frame
  simp only
  split_ifs <;> simp [idlePhase_intro]

theorem frame_no_break (env : Env) (inp : FrameInput) (s : Scene) (h : inp.keyEnter = false) :
    (frame env inp s).2 = false := by
  unfold frame idlePhase
  simp only [h, Bool.false_eq_true, if_false]
  split_ifs <;> rfl

theorem mainLoop_cons_no_break (env : Env) (inp : FrameInput) (rest : List FrameInput)
    (s : Scene) (hw : inp.windowShouldClose = false) (he : inp.keyEnter = false) :
    mainLoop env (inp :: rest) s = (frame env inp s).1 :: mainLoop env rest (frame env inp s).1 := by
  rw [mainLoop]
  simp [hw, frame_no_break env inp s he]

/-- The flag is true exactly when the timer has passed the duration: an invariant of
the frame. -/
theorem frame_flag_iff_timer (env : Env) (inp : FrameInput) (s : Scene)
    (h : s.introAnimationComplete = true ↔ introAnimationDuration < s.introAnimationTimer) :
    (frame env inp s).1.introAnimationComplete = true
      ↔ introAnimationDuration < (frame env inp s).1.introAnimationTimer := by
  rw [frame_complete, frame_timer]
  by_cases hc : s.introAnimationComplete = true
  · simp [hc, h.mp hc]
  · have hc0 : s.introAnimationComplete = false := by simpa using hc
    simp [hc0]

/-- A pass of the loop that starts with the flag true ends with the flag true. -/
theorem frame_flag_stays (env : Env) (inp : FrameInput) (s : Scene)
    (h : s.introAnimationComplete = true) :
    (frame env inp s).1.introAnimationComplete = true := by
  rw [frame_complete, h]
  rfl

/-- Along the main loop from any scene that satisfies the invariant of
`frame_flag_iff_timer`: the invariant holds at the end of every pass, and a flag that is
true at the start is true at the end of every pass. -/
theorem mainLoop_flag (env : Env) (inputs : List FrameInput) (s : Scene) (k : Nat)
    (sk : Scene) (hk : (mainLoop env inputs s)[k]? = some sk) :
    ((s.introAnimationComplete = true ↔ introAnimationDuration < s.introAnimationTimer) →
        (sk.introAnimationComplete = true ↔ introAnimationDuration < sk.introAnimationTimer))
      ∧ (s.introAnimationComplete = true → sk.introAnimationComplete = true) := by
  induction inputs generalizing s k with
  | nil => simp [mainLoop] at hk
  | cons inp rest ih =>
    have hfirst : ((s.introAnimationComplete = true
          ↔ introAnimationDuration < s.introAnimationTimer) →
        ((frame env inp s).1.introAnimationComplete = true
          ↔ introAnimationDuration < (frame env inp s).1.introAnimationTimer))
        ∧ (s.introAnimationComplete = true →
          (frame env inp s).1.introAnimationComplete = true) :=
      ⟨frame_flag_iff_timer env inp s, frame_flag_stays env inp s⟩
    unfold mainLoop at hk
    by_cases hw : inp.windowShouldClose = true
    · simp [hw] at hk
    · simp only [hw, Bool.false_eq_true, if_false] at hk
      by_cases hb : (frame env inp s).2 = true
      · simp only [hb, if_true] at hk
        cases k with
        | zero =>
          simp only [List.getElem?_cons_zero, Option.some.injEq] at hk
          subst hk
          exact hfirst
        | succ k => simp at hk
      · simp only [hb, Bool.false_eq_true, if_false] at hk
        cases k with
        | zero =>
          simp only [List.getElem?_cons_zero, Option.some.injEq] at hk
          subst hk
          exact hfirst
        | succ k =>
          simp only [List.getElem?_cons_succ] at hk
          have ih1 := ih (frame env inp s).1 k hk
          exact ⟨fun h => ih1.1 (hfirst.1 h), fun h => ih1.2 (hfirst.2 h)⟩

/-- A flag that is true at the end of pass `j` is true at the end of every later pass. -/
theorem mainLoop_flag_stays (env : Env) (inputs : List FrameInput) (s : Scene) (j k : Nat)
    (sj sk : Scene) (hjk : j ≤ k) (hj : (mainLoop env inputs s)[j]? = some sj)
    (hk : (mainLoop env inputs s)[k]? = some sk)
    (h : sj.introAnimationComplete = true) : sk.introAnimationComplete = true := by
  induction inputs generalizing s j k with
  | nil => simp [mainLoop] at hk
  | cons inp rest ih =>
    unfold mainLoop at hj hk
    by_cases hw : inp.windowShouldClose = true
    · simp [hw] at hk
    · simp only [hw, Bool.false_eq_true, if_false] at hj hk
      by_cases hb : (frame env inp s).2 = true
      · simp only [hb, if_true] at hj hk
        cases k with
        | zero =>
          have hj0 : j = 0 := by omega
          subst hj0
          rw [hj] at hk
          simp only [Option.some.injEq] at hk
          rw [← hk]
          exact h
        | succ k => simp at hk
      · simp only [hb, Bool.false_eq_true, if_false] at hj hk
        cases k with
        | zero =>
          have hj0 : j = 0 := by omega
          subst hj0
          rw [hj] at hk
          simp only [Option.some.injEq] at hk
          rw [← hk]
          exact h
        | succ k =>
          simp only [List.getElem?_cons_succ] at hk
          cases j with
          | zero =>
            simp only [List.getElem?_cons_zero, Option.some.injEq] at hj
            subst hj
            exact (mainLoop_flag env rest _ k sk hk).2 h
          | succ j =>
            simp only [List.getElem?_cons_succ] at hj
            exact ih (frame env inp s).1 j k (by omega) hj hk

theorem roundToFloat_two : roundToFloat ((0 : ℚ) + 2) = 2 := by
  rw [roundToFloat_eval ((0 : ℚ) + 2) 1 8388608 (by norm_num) (by norm_num) (by norm_num)
    (roundNearestEven_of_abs_lt _ _ (by rw [abs_lt]; constructor <;> norm_num))]
  norm_num

/-- C9, as stated, fails: after a first frame of 2 seconds the accumulated timer is 2, which
is greater than or equal to `introAnimationDuration`, and `introAnimationComplete` is still
false; the test of line 261 is the strict `progress > 1.0f`. -/
theorem C9_timer_equal_duration_counterexample :
    0 ≤ slowFrame.frameTime
      ∧ (mainLoop sampleEnv [slowFrame] (initialScene ⟨0⟩)).map
          (fun s => (s.introAnimationTimer, s.introAnimationComplete)) = [(2, false)]
      ∧ introAnimationDuration ≤ 2 := by
  refine ⟨by norm_num [slowFrame], ?_, by norm_num [introAnimationDuration]⟩
  rw [mainLoop_cons_no_break _ _ _ _ rfl rfl]
  simp only [mainLoop, List.map_cons, List.map_nil, frame_timer, frame_complete]
  have h0 : (initialScene ⟨0⟩).introAnimationComplete = false := rfl
  have ht : (initialScene ⟨0⟩).introAnimationTimer + slowFrame.frameTime = (0 : ℚ) + 2 := by
    norm_num [initialScene, slowFrame]
  rw [h0, ht, roundToFloat_two]
  norm_num [introAnimationDuration]

/-- C9 (amended): for every sequence of frame times, the main loop leaves the intro phase
in the first frame in which the accumulated intro timer is strictly greater than
`introAnimationDuration` (2.0): at the end of every pass `k` the flag
`introAnimationComplete` is true exactly when `introAnimationTimer` exceeds 2.0; and once
the flag is true it is true in every later frame. -/
theorem C9_intro_completes_when_timer_exceeds_duration (env : Env) (sphereModel : Model)
    (inputs : List FrameInput) (j k : Nat) (sj sk : Scene) (hjk : j ≤ k)
    (hj : (mainLoop env inputs (initialScene sphereModel))[j]? = some sj)
    (hk : (mainLoop env inputs (initialScene sphereModel))[k]? = some sk) :
    (sk.introAnimationComplete = true ↔ introAnimationDuration < sk.introAnimationTimer)
      ∧ (sj.introAnimationComplete = true → sk.introAnimationComplete = true) := by
  have h0 : (initialScene sphereModel).introAnimationComplete = false := rfl
  have ht : (initialScene sphereModel).introAnimationTimer = 0 := by
    norm_num [initialScene]
  have hinit : (initialScene sphereModel).introAnimationComplete = true
      ↔ introAnimationDuration < (initialScene sphereModel).introAnimationTimer := by
    rw [h0, ht]
    norm_num [introAnimationDuration]
  exact ⟨(mainLoop_flag env inputs _ k sk hk).1 hinit,
    mainLoop_flag_stays env inputs _ j k sj sk hjk hj hk⟩

/-- C9 (amended) at two frames of two seconds: the flag is false after the first and true
after the second. -/
theorem C9_intro_completes_when_timer_exceeds_duration_witness :
    (((frame sampleEnv slowFrame (frame sampleEnv slowFrame (initialScene ⟨0⟩)).1).1
          ).introAnimationComplete = true
        ↔ introAnimationDuration
          < ((frame sampleEnv slowFrame (frame sampleEnv slowFrame (initialScene ⟨0⟩)).1).1
              ).introAnimationTimer)
      ∧ ((frame sampleEnv slowFrame (initialScene ⟨0⟩)).1.introAnimationComplete = true →
        ((frame sampleEnv slowFrame (frame sampleEnv slowFrame (initialScene ⟨0⟩)).1).1
          ).introAnimationComplete = true) :=
  C9_intro_completes_when_timer_exceeds_duration sampleEnv ⟨0⟩ [slowFrame, slowFrame]
    0 1 _ _ (by omega)
    (by rw [mainLoop_cons_no_break _ _ _ _ rfl rfl]; simp)
    (by rw [mainLoop_cons_no_break _ _ _ _ rfl rfl, mainLoop_cons_no_break _ _ _ _ rfl rfl]; simp)

theorem idlePhase_right_only (env : Env) (inp : FrameInput) (s : Scene)
    (hr : inp.keyRight = true) (hl : inp.keyLeft = false) (he : inp.keyEnter = false) :
    (idlePhase env inp s).1.currentItem = Int.tmod (s.currentItem + 1) numMenuItems := by
  unfold idlePhase
  simp [hr, hl, he, pressRight, moveSelection_intro]

theorem idlePhase_left_only (env : Env) (inp : FrameInput) (s : Scene)
    (hr : inp.keyRight = false) (hl : inp.keyLeft = true) (he : inp.keyEnter = false) :
    (idlePhase env inp s).1.currentItem
      = Int.tmod (s.currentItem - 1 + numMenuItems) numMenuItems := by
  unfold idlePhase
  simp [hr, hl, he, pressLeft, moveSelection_intro]

/-- C4: for every current index `i` with `0 ≤ i < numMenuItems` (3), the right key sets the
selection to `(i + 1) mod 3` and the left key to `(i - 1 + 3) mod 3`, in the handlers and
in the idle branch of the frame that calls them; the new index is again in `0..2`;
right from index 2 yields 0 and left from index 0 yields 2. -/
theorem C4_navigation_wraps (env : Env) (s : Scene) (inpR inpL : FrameInput)
    (h0 : 0 ≤ s.currentItem) (h1 : s.currentItem < numMenuItems)
    (hR : inpR.keyRight = true ∧ inpR.keyLeft = false ∧ inpR.keyEnter = false)
    (hL : inpL.keyRight = false ∧ inpL.keyLeft = true ∧ inpL.keyEnter = false) :
    ((pressRight env s).currentItem = (s.currentItem + 1) % 3
        ∧ (pressLeft env s).currentItem = (s.currentItem - 1 + 3) % 3)
      ∧ ((idlePhase env inpR s).1.currentItem = (s.currentItem + 1) % 3
        ∧ (idlePhase env inpL s).1.currentItem = (s.currentItem - 1 + 3) % 3)
      ∧ (0 ≤ (pressRight env s).currentItem ∧ (pressRight env s).currentItem < numMenuItems
        ∧ 0 ≤ (pressLeft env s).currentItem ∧ (pressLeft env s).currentItem < numMenuItems)
      ∧ (s.currentItem = 2 → (pressRight env s).currentItem = 0)
      ∧ (s.currentItem = 0 → (pressLeft env s).currentItem = 2) := by
  have hn : numMenuItems = 3 := rfl
  rw [hn] at h1
  have eR : (pressRight env s).currentItem = (s.currentItem + 1) % 3 := by
    simp only [pressRight, moveSelection_intro, hn]
    rw [Int.tmod_eq_emod (by omega) (by omega)]
  have eL : (pressLeft env s).currentItem = (s.currentItem - 1 + 3) % 3 := by
    simp only [pressLeft, moveSelection_intro, hn]
    rw [Int.tmod_eq_emod (by omega) (by omega)]
  have eR2 : (idlePhase env inpR s).1.currentItem = (s.currentItem + 1) % 3 := by
    rw [idlePhase_right_only env inpR s hR.1 hR.2.1 hR.2.2, hn]
    rw [Int.tmod_eq_emod (by omega) (by omega)]
  have eL2 : (idlePhase env inpL s).1.currentItem = (s.currentItem - 1 + 3) % 3 := by
    rw [idlePhase_left_only env inpL s hL.1 hL.2.1 hL.2.2, hn]
    rw [Int.tmod_eq_emod (by omega) (by omega)]
  refine ⟨⟨eR, eL⟩, ⟨eR2, eL2⟩, ?_, ?_, ?_⟩
  · rw [eR, eL, hn]; omega
  · intro h; rw [eR, h]; rfl
  · intro h; rw [eL, h]; rfl

/-- C4 at the initial scene (index 0), with a right-key frame and a left-key frame. -/
theorem C4_navigation_wraps_witness :
    ((pressRight sampleEnv (initialScene ⟨0⟩)).currentItem
          = ((initialScene ⟨0⟩).currentItem + 1) % 3
        ∧ (pressLeft sampleEnv (initialScene ⟨0⟩)).currentItem
          = ((initialScene ⟨0⟩).currentItem - 1 + 3) % 3)
      ∧ ((idlePhase sampleEnv rightFrame (initialScene ⟨0⟩)).1.currentItem
          = ((initialScene ⟨0⟩).currentItem + 1) % 3
        ∧ (idlePhase sampleEnv leftFrame (initialScene ⟨0⟩)).1.currentItem
          = ((initialScene ⟨0⟩).currentItem - 1 + 3) % 3)
      ∧ (0 ≤ (pressRight sampleEnv (initialScene ⟨0⟩)).currentItem
        ∧ (pressRight sampleEnv (initialScene ⟨0⟩)).currentItem < numMenuItems
        ∧ 0 ≤ (pressLeft sampleEnv (initialScene ⟨0⟩)).currentItem
        ∧ (pressLeft sampleEnv (initialScene ⟨0⟩)).currentItem < numMenuItems)
      ∧ ((initialScene ⟨0⟩).currentItem = 2
        → (pressRight sampleEnv (initialScene ⟨0⟩)).currentItem = 0)
      ∧ ((initialScene ⟨0⟩).currentItem = 0
        → (pressLeft sampleEnv (initialScene ⟨0⟩)).currentItem = 2) :=
  C4_navigation_wraps sampleEnv (initialScene ⟨0⟩) rightFrame leftFrame (by decide) (by decide)
    ⟨rfl, rfl, rfl⟩ ⟨rfl, rfl, rfl⟩

/-- The item at position `n` after the intro loop started at index `i` is the old item
animated with the progress of index `i + n`. -/
theorem introItems_getElem? (p : ℚ) (items : List MenuItem) (i : Int) (n : Nat) :
    (introItems p i items)[n]?
      = items[n]?.map (fun m => m.AnimateIntro (itemProgress p (i + (n : Int)))) := by
  induction items generalizing i n with
  | nil => simp [introItems]
  | cons m rest ih =>
    cases n with
    | zero => simp [introItems]
    | succ n =>
      simp only [introItems, List.getElem?_cons_succ]
      rw [ih]
      have e : i + 1 + (n : Int) = i + ((n + 1 : Nat) : Int) := by push_cast; ring
      rw [e]

theorem itemProgress_eq_clamp (p : ℚ) (i : Int) :
    itemProgress p i
      = max 0 (min 1
          (roundToFloat (p - roundToFloat (roundToFloat 0.1 * roundToFloat (i : ℚ))))) := by
  unfold itemProgress
  simp only
  generalize roundToFloat (p - roundToFloat (roundToFloat 0.1 * roundToFloat (i : ℚ))) = x
  by_cases h0 : x < 0
  · rw [if_pos h0, if_neg (by norm_num)]
    rw [min_eq_right (by linarith), max_eq_left (le_of_lt h0)]
  · rw [if_neg h0]
    push_neg at h0
    by_cases h1 : x > 1
    · rw [if_pos h1, min_eq_left (le_of_lt h1), max_eq_right (by norm_num)]
    · rw [if_neg h1]
      push_neg at h1
      rw [min_eq_right h1, max_eq_right h0]

theorem tenth_eq : roundToFloat 0.1 = (13421773 / 134217728 : ℚ) := by
  rw [roundToFloat_eval 0.1 (-4) 13421773 (by norm_num) (by norm_num) (by norm_num)
    (roundNearestEven_of_abs_lt _ _ (by rw [abs_lt]; constructor <;> norm_num))]
  norm_num

theorem fifteen_hundredths_eq : roundToFloat 0.15 = (5033165 / 33554432 : ℚ) := by
  rw [roundToFloat_eval 0.15 (-3) 10066330 (by norm_num) (by norm_num) (by norm_num)
    (roundNearestEven_of_abs_lt _ _ (by rw [abs_lt]; constructor <;> norm_num))]
  norm_num

theorem five_hundredths_eq : roundToFloat 0.05 = (13421773 / 268435456 : ℚ) := by
  rw [roundToFloat_eval 0.05 (-5) 13421773 (by norm_num) (by norm_num) (by norm_num)
    (roundNearestEven_of_abs_lt _ _ (by rw [abs_lt]; constructor <;> norm_num))]
  norm_num

/-- The progress of item 0 at the global progress 0.15f is 0.15f. -/
theorem itemProgress_fifteen_zero : itemProgress (roundToFloat 0.15) 0 = roundToFloat 0.15 := by
  rw [itemProgress_eq_clamp]
  have e : roundToFloat (roundToFloat 0.15
      - roundToFloat (roundToFloat 0.1 * roundToFloat ((0 : Int) : ℚ))) = roundToFloat 0.15 := by
    rw [Int.cast_zero, roundToFloat_zero, mul_zero, roundToFloat_zero, sub_zero,
      roundToFloat_idem]
  rw [e, fifteen_hundredths_eq]
  norm_num

/-- The progress of item 1 at the global progress 0.15f is 0.15f - 0.1f. -/
theorem itemProgress_fifteen_one :
    itemProgress (roundToFloat 0.15) 1 = (6710887 / 134217728 : ℚ) := by
  rw [itemProgress_eq_clamp]
  have e1 : roundToFloat ((1 : Int) : ℚ) = 1 := by
    rw [Int.cast_one,
      roundToFloat_eval 1 0 8388608 (by norm_num) (by norm_num) (by norm_num)
        (roundNearestEven_of_abs_lt _ _ (by rw [abs_lt]; constructor <;> norm_num))]
    norm_num
  have e2 : roundToFloat (roundToFloat 0.1 * 1) = (13421773 / 134217728 : ℚ) := by
    rw [mul_one, roundToFloat_idem, tenth_eq]
  have e3 : roundToFloat ((5033165 / 33554432 : ℚ) - (13421773 / 134217728 : ℚ))
      = (6710887 / 134217728 : ℚ) := by
    rw [roundToFloat_eval ((5033165 / 33554432 : ℚ) - (13421773 / 134217728 : ℚ)) (-5) 13421774
      (by norm_num) (by norm_num) (by norm_num)
      (roundNearestEven_of_abs_lt _ _ (by rw [abs_lt]; constructor <;> norm_num))]
    norm_num
  rw [e1, e2, fifteen_hundredths_eq, e3]
  norm_num

/-- C5, as stated, fails: at the global progress 0.15f, which lies in `[0, 1]`, the intro
loop hands item 1 the float 0.15f - 0.1f = 6710887/134217728; this is neither 0.05 nor
the float nearest 0.05 (13421773/268435456). -/
theorem C5_item_one_progress_counterexample :
    0 ≤ roundToFloat 0.15 ∧ roundToFloat 0.15 ≤ 1
      ∧ (introItems (roundToFloat 0.15) 0 [sampleItem, restingItem])[1]?
          = some (restingItem.AnimateIntro (6710887 / 134217728))
      ∧ itemProgress (roundToFloat 0.15) 1 = 6710887 / 134217728
      ∧ roundToFloat 0.05 = 13421773 / 268435456
      ∧ itemProgress (roundToFloat 0.15) 1 ≠ roundToFloat 0.05
      ∧ itemProgress (roundToFloat 0.15) 1 ≠ 0.05 := by
  refine ⟨?_, ?_, ?_, itemProgress_fifteen_one, five_hundredths_eq, ?_, ?_⟩
  · rw [fifteen_hundredths_eq]; norm_num
  · rw [fifteen_hundredths_eq]; norm_num
  · rw [introItems_getElem?]
    have : ((0 : Int) + ((1 : Nat) : Int)) = 1 := rfl
    rw [this, itemProgress_fifteen_one]
    rfl
  · rw [itemProgress_fifteen_one, five_hundredths_eq]; norm_num
  · rw [itemProgress_fifteen_one]; norm_num

/-- C5 (amended): for a global intro progress `p` in `[0, 1]` and item indices `i ≤ j`, the
progress that the intro loop passes to `AnimateIntro` for item `i` is the float
`p - 0.1f*i` clamped to `[0, 1]`; it lies in `[0, 1]` and the one of the later item `j` is
not larger; at `p = 0.15f` item 0 receives 0.15f and item 1 receives
0.15f - 0.1f = 6710887/134217728, which is within 1e-8 of 0.05. -/
theorem C5_intro_stagger (p : ℚ) (hp0 : 0 ≤ p) (hp1 : p ≤ 1) (i j : Nat) (hij : i ≤ j)
    (items : List MenuItem) :
    (introItems p 0 items)[i]?
        = items[i]?.map (fun m => m.AnimateIntro (itemProgress p (i : Int)))
      ∧ itemProgress p (i : Int)
        = max 0 (min 1
            (roundToFloat (p - roundToFloat (roundToFloat 0.1 * roundToFloat ((i : Int) : ℚ)))))
      ∧ 0 ≤ itemProgress p (i : Int) ∧ itemProgress p (i : Int) ≤ 1
      ∧ itemProgress p (j : Int) ≤ itemProgress p (i : Int)
      ∧ itemProgress p 0 = roundToFloat p
      ∧ itemProgress (roundToFloat 0.15) 0 = roundToFloat 0.15
      ∧ itemProgress (roundToFloat 0.15) 1 = 6710887 / 134217728
      ∧ |itemProgress (roundToFloat 0.15) 1 - 0.05| < 1 / 100000000 := by
  have hi := itemProgress_eq_clamp p (i : Int)
  have hj := itemProgress_eq_clamp p (j : Int)
  have hcast : ((i : Int) : ℚ) ≤ ((j : Int) : ℚ) := by exact_mod_cast hij
  refine ⟨?_, hi, ?_, ?_, ?_, ?_, itemProgress_fifteen_zero, itemProgress_fifteen_one, ?_⟩
  · rw [introItems_getElem?, zero_add]
  · rw [hi]; exact le_max_left _ _
  · rw [hi]; exact max_le (by norm_num) (min_le_left _ _)
  · rw [hi, hj]
    apply max_le_max (le_refl _)
    apply min_le_min (le_refl _)
    apply roundToFloat_mono
    have h1 := roundToFloat_mono _ _ hcast
    have h2 : 0 ≤ roundToFloat 0.1 := roundToFloat_nonneg _ (by norm_num)
    have h3 := roundToFloat_mono _ _ (mul_le_mul_of_nonneg_left h1 h2)
    linarith
  · rw [itemProgress_eq_clamp, Int.cast_zero, roundToFloat_zero, mul_zero, roundToFloat_zero,
      sub_zero]
    have h1 : 0 ≤ roundToFloat p := roundToFloat_nonneg p hp0
    have h2 : roundToFloat p ≤ 1 := by
      have := roundToFloat_mono p 1 hp1
      have e1 : roundToFloat 1 = 1 := by
        rw [roundToFloat_eval 1 0 8388608 (by norm_num) (by norm_num) (by norm_num)
          (roundNearestEven_of_abs_lt _ _ (by rw [abs_lt]; constructor <;> norm_num))]
        norm_num
      rwa [e1] at this
    rw [min_eq_right h2, max_eq_right h1]
  · rw [itemProgress_fifteen_one, abs_lt]
    constructor <;> norm_num

/-- C5 (amended) at progress 0.15f and the indices 0 and 1. -/
theorem C5_intro_stagger_witness :
    itemProgress (roundToFloat 0.15) ((1 : Nat) : Int)
        ≤ itemProgress (roundToFloat 0.15) ((0 : Nat) : Int)
      ∧ 0 ≤ itemProgress (roundToFloat 0.15) ((0 : Nat) : Int)
      ∧ itemProgress (roundToFloat 0.15) ((0 : Nat) : Int) ≤ 1 := by
  have h := C5_intro_stagger (roundToFloat 0.15) (by rw [fifteen_hundredths_eq]; norm_num)
    (by rw [fifteen_hundredths_eq]; norm_num) 0 1 (by omega) [sampleItem, restingItem]
  exact ⟨h.2.2.2.2.1, h.2.2.1, h.2.2.2.1⟩

end Dendy
